import Mathlib

/-!
Verification of the navaar synchronization engine against its
natural-language specification.

The definitions below are a shallow embedding of the Python sources:

* `src/navaar/db/models.py`      — the `Track`, `SyncState`, `SyncLog` rows;
* `src/navaar/db/repository.py`  — `TrackRepository`, `SyncStateRepository`,
  `SyncLogRepository`;
* `src/navaar/sync/identifier.py` — the pure identification pipeline;
* `src/navaar/sync/tg_to_yt.py`, `sp_to_yt.py` — the two cited Shape A
  ("target-push") direction workers;
* `src/navaar/sync/yt_to_tg.py`, `sp_to_tg.py` — the two Shape B
  ("source-pull-and-transfer") direction workers.

The database is modelled as a list of rows in insertion order (SQLite
assigns ascending autoincrement ids, and a `SELECT` without `ORDER BY`
scans a plain table in rowid order).  Timestamps are modelled as `Nat`
clock values supplied by the caller; only their presence matters to the
claims.  Python exceptions are modelled with `Except PyErr`; an attribute
access or method call that does not exist in the source raises
`PyErr.attributeError`, exactly as CPython does.  The JSON round-trip
`json.loads (json.dumps l)` on a list of strings is the identity, so the
state store's values are modelled as an inductive of plain strings and
string lists.  The `details` JSON payload of a log row and the Prometheus
metric side effects are not modelled: no claim depends on them.
-/

namespace Navaar

/-- One row of the `tracks` table (`src/navaar/db/models.py`, class `Track`).
Field defaults mirror the `mapped_column` defaults: `status="pending"`,
`retry_count=0`, `max_retries=3`, every nullable column `NULL`.  Note that
`models.py` maps NO `sp_track_id` column, although the migration in
`src/navaar/db/engine.py` adds such a column to the raw table and the
spec's data model lists it; the ORM row therefore has no such attribute. -/
structure Track where
  id : Nat
  direction : String
  status : String := "pending"
  artist : Option String := none
  title : String
  identification_method : Option String := none
  tg_message_id : Option Nat := none
  tg_file_id : Option String := none
  tg_file_unique_id : Option String := none
  yt_video_id : Option String := none
  yt_set_video_id : Option String := none
  duration_seconds : Option Nat := none
  failure_reason : Option String := none
  retry_count : Nat := 0
  max_retries : Nat := 3
  synced_at : Option Nat := none
  deriving Repr, DecidableEq

/-- Value stored in the `sync_state` table: the raw strings written by
`SyncStateRepository.set`, and JSON string arrays written via `set_json`
(the `json.dumps` / `json.loads` round-trip on a list of strings is the
identity, so the array is kept structured). -/
inductive SVal where
  | str (s : String)
  | jlist (l : List String)
  deriving Repr, DecidableEq

/-- One row of the `sync_log` table (`src/navaar/db/models.py`, class
`SyncLog`); the `details` JSON payload is not modelled. -/
structure LogEntry where
  track_id : Option Nat
  event : String
  direction : Option String
  deriving Repr, DecidableEq

/-- The whole database: `tracks` in insertion (= ascending rowid) order,
the autoincrement counter, the `sync_state` key/value rows and the
append-only `sync_log`. -/
structure DB where
  tracks : List Track := []
  nextTrackId : Nat := 1
  syncState : List (String × SVal) := []
  logs : List LogEntry := []
  deriving Repr, DecidableEq

/-- Python exceptions that the embedded code can raise. -/
inductive PyErr where
  | attributeError
  | typeError
  | multipleResults
  | adapter (msg : String)
  deriving Repr, DecidableEq

/-- Rendering used where the source interpolates an exception into an
f-string (`f"download_failed: \x7be\x7d"`). -/
def PyErr.msg : PyErr → String
  | .attributeError => "AttributeError"
  | .typeError => "TypeError"
  | .multipleResults => "MultipleResultsFound"
  | .adapter m => m

/-- Python truthiness of an optional string (`None` and `""` are falsy). -/
def truthyS : Option String → Bool
  | none => false
  | some s => s != ""

/-- Python `a or b` on optional strings (`info.artist or track.artist`). -/
def pyOr (a b : Option String) : Option String :=
  if truthyS a then a else b

/-! ## TrackRepository (src/navaar/db/repository.py) -/

/-- `create_track(**kwargs)`: builds the row, assigns the next
autoincrement id, commits, returns the refreshed row.  The caller supplies
the row as a function of the assigned id, mirroring the keyword arguments
it passes (unspecified columns keep the model defaults). -/
def createTrack (db : DB) (mk : Nat → Track) : DB × Track :=
  let t := mk db.nextTrackId
  ({ db with tracks := db.tracks ++ [t], nextTrackId := db.nextTrackId + 1 }, t)

/-- `get_track(track_id)`: primary-key lookup. -/
def getTrack (db : DB) (i : Nat) : Option Track :=
  db.tracks.find? (fun t => t.id == i)

/-- `scalar_one_or_none()` on an executed `select`: `None` for no row, the
row if unique, raises `MultipleResultsFound` otherwise. -/
def scalarOneOrNone (l : List Track) : Except PyErr (Option Track) :=
  match l with
  | [] => .ok none
  | [t] => .ok (some t)
  | _ => .error .multipleResults

/-- `get_track_by_tg_file_unique_id`. -/
def getTrackByTgFileUniqueId (db : DB) (fuid : String) : Except PyErr (Option Track) :=
  scalarOneOrNone (db.tracks.filter (fun t => t.tg_file_unique_id == some fuid))

/-- `get_track_by_tg_message_id`. -/
def getTrackByTgMessageId (db : DB) (mid : Nat) : Except PyErr (Option Track) :=
  scalarOneOrNone (db.tracks.filter (fun t => t.tg_message_id == some mid))

/-- `get_track_by_yt_video_id`. -/
def getTrackByYtVideoId (db : DB) (vid : String) : Except PyErr (Option Track) :=
  scalarOneOrNone (db.tracks.filter (fun t => t.yt_video_id == some vid))

/-- `TrackRepository` in `src/navaar/db/repository.py` defines NO method
`get_track_by_sp_track_id`, although `SpToTgSync._sync_track`
(`src/navaar/sync/sp_to_tg.py` lines 132 and 156) and the unit tests
(`tests/unit/test_sp_to_tg.py` lines 91 and 152) call it.  In Python,
calling a missing attribute raises `AttributeError`; this definition is
that call's exact semantics. -/
def getTrackBySpTrackId (_db : DB) (_spId : String) : Except PyErr (Option Track) :=
  .error .attributeError

/-- `get_pending_tracks(direction)`: all rows with the direction and
status `pending` or `retry_scheduled`, in table-scan (rowid) order — the
`select` carries no `ORDER BY`. -/
def getPendingTracks (db : DB) (d : String) : List Track :=
  db.tracks.filter (fun t =>
    t.direction == d && (t.status == "pending" || t.status == "retry_scheduled"))

/-- `get_failed_tracks(direction=None)`. -/
def getFailedTracks (db : DB) (d : Option String) : List Track :=
  db.tracks.filter (fun t =>
    t.status == "failed" &&
      (match d with
       | none => true
       | some dir => t.direction == dir))

/-- The column assignments of one `update_track(track_id, **kwargs)` call:
`none` means the keyword was not passed.  For columns the call sites may
set to `NULL` (`artist`, `failure_reason`) the payload is itself an
option. -/
structure Upd where
  status : Option String := none
  artist : Option (Option String) := none
  title : Option String := none
  identification_method : Option String := none
  failure_reason : Option (Option String) := none
  retry_count : Option Nat := none
  synced_at : Option Nat := none
  tg_message_id : Option Nat := none
  yt_video_id : Option String := none
  deriving Repr, DecidableEq

/-- Applies the `values(**kwargs)` of an `UPDATE` to one row. -/
def applyUpd (u : Upd) (t : Track) : Track :=
  { t with
    status := u.status.getD t.status
    artist := u.artist.getD t.artist
    title := u.title.getD t.title
    identification_method :=
      match u.identification_method with
      | some m => some m
      | none => t.identification_method
    failure_reason := u.failure_reason.getD t.failure_reason
    retry_count := u.retry_count.getD t.retry_count
    synced_at :=
      match u.synced_at with
      | some n => some n
      | none => t.synced_at
    tg_message_id :=
      match u.tg_message_id with
      | some m => some m
      | none => t.tg_message_id
    yt_video_id :=
      match u.yt_video_id with
      | some v => some v
      | none => t.yt_video_id }

/-- `update_track(track_id, **kwargs)`: `UPDATE … WHERE id = track_id`,
commit, then re-fetch the row (`None` when no such row exists; the
`UPDATE` then matched nothing and the table is unchanged). -/
def updateTrack (db : DB) (i : Nat) (u : Upd) : DB × Option Track :=
  let db' := { db with tracks := db.tracks.map (fun t => if t.id == i then applyUpd u t else t) }
  (db', getTrack db' i)

/-- `mark_synced(track_id, **extra)`: `update_track` with
`status="synced"`, `synced_at=datetime.now(utc)` (the clock value is the
`now` argument) plus the extra columns. -/
def markSynced (db : DB) (i : Nat) (now : Nat) (extra : Upd) : DB × Option Track :=
  updateTrack db i { extra with status := some "synced", synced_at := some now }

/-- `mark_failed(track_id, reason)`: re-reads the row; `None` (no write)
when absent; else `update_track` to `failed` with the reason and
`retry_count` bumped by one. -/
def markFailed (db : DB) (i : Nat) (reason : String) : DB × Option Track :=
  match getTrack db i with
  | none => (db, none)
  | some t =>
      updateTrack db i
        { status := some "failed", failure_reason := some (some reason),
          retry_count := some (t.retry_count + 1) }

/-- `mark_duplicate(track_id)`. -/
def markDuplicate (db : DB) (i : Nat) : DB × Option Track :=
  updateTrack db i { status := some "duplicate" }

/-- `reset_for_retry(track_id)`: status `retry_scheduled`,
`failure_reason` cleared; `retry_count` untouched. -/
def resetForRetry (db : DB) (i : Nat) : DB × Option Track :=
  updateTrack db i { status := some "retry_scheduled", failure_reason := some none }

/-- The row filter of `reset_all_failed`: `status = failed`, restricted to
a direction when one is given. -/
def failedHit (d : Option String) (t : Track) : Bool :=
  t.status == "failed" &&
    (match d with
     | none => true
     | some dir => t.direction == dir)

/-- `reset_all_failed(direction=None)`: one `UPDATE` over every `failed`
row (optionally restricted to a direction), returning the rowcount. -/
def resetAllFailed (db : DB) (d : Option String) : DB × Nat :=
  let db' := { db with tracks := db.tracks.map (fun t =>
    if failedHit d t then { t with status := "retry_scheduled", failure_reason := none } else t) }
  (db', (db.tracks.filter (failedHit d)).length)

/-- `delete_track(track_id)`: `False` (no write) when the row is absent,
else removes it and returns `True`. -/
def deleteTrack (db : DB) (i : Nat) : DB × Bool :=
  match getTrack db i with
  | none => (db, false)
  | some _ => ({ db with tracks := db.tracks.filter (fun t => t.id != i) }, true)

/-! ## SyncStateRepository and SyncLogRepository (src/navaar/db/repository.py) -/

/-- `SyncStateRepository.get(key)`. -/
def stateGet (db : DB) (k : String) : Option SVal :=
  (db.syncState.find? (fun p => p.1 == k)).map (fun p => p.2)

/-- `SyncStateRepository.set(key, value)`: updates the row in place when
the key exists, inserts otherwise (last-writer-wins). -/
def stateSet (db : DB) (k : String) (v : SVal) : DB :=
  if (db.syncState.find? (fun p => p.1 == k)).isSome then
    { db with syncState := db.syncState.map (fun p => if p.1 == k then (k, v) else p) }
  else
    { db with syncState := db.syncState ++ [(k, v)] }

/-- `SyncStateRepository.set_json(key, value)` for the list-of-ids
snapshots (`json.dumps` of a list of strings). -/
def stateSetJson (db : DB) (k : String) (l : List String) : DB :=
  stateSet db k (.jlist l)

/-- The snapshot read of Shape B workers: `get_json` followed by
`set(prev) if isinstance(prev, list) else set()`; non-list and absent
values both give the empty seen-set. -/
def snapshotIds (db : DB) (k : String) : List String :=
  match stateGet db k with
  | some (.jlist l) => l
  | _ => []

/-- `SyncLogRepository.log(event, track_id, direction, details)`; the
`details` payload is not modelled. -/
def logEvent (db : DB) (event : String) (tid : Option Nat) (dir : Option String) : DB :=
  { db with logs := db.logs ++ [{ track_id := tid, event := event, direction := dir }] }

/-! ## Identifier pipeline (src/navaar/sync/identifier.py)

String processing is done on `List Char`; `String` wrappers convert at the
boundary.  Whitespace is `Char.isWhitespace`, which covers every character
appearing in the claims' inputs. -/

/-- Result triple of the identifier (`dataclass TrackInfo`). -/
structure TrackInfo where
  artist : Option String
  title : String
  method : String
  deriving Repr, DecidableEq

/-- Python `str.strip()`. -/
def pyStrip (l : List Char) : List Char :=
  ((l.dropWhile Char.isWhitespace).reverse.dropWhile Char.isWhitespace).reverse

/-- `pathlib.Path(name).stem` step 1: the final path component. -/
def lastComponent (l : List Char) : List Char :=
  (l.splitOn '/').getLastD []

/-- `pathlib.Path(name).stem` step 2: the name without its suffix; a
suffix exists when the last dot sits strictly inside the name (index `> 0`
and not last). -/
def dropSuffix (name : List Char) : List Char :=
  match (name.reverse.findIdx? (fun c => c == '.')) with
  | none => name
  | some j =>
      let i := name.length - 1 - j
      if 0 < i && i < name.length - 1 then name.take i else name

/-- `pathlib.Path(file_name).stem`. -/
def pathStem (s : String) : List Char :=
  dropSuffix (lastComponent s.toList)

/-- Case-insensitive match of the literal prefix against the input,
returning the remainder (the `re.IGNORECASE` flag applied to a literal). -/
def ciDropPrefixList : List Char → List Char → Option (List Char)
  | [], l => some l
  | _ :: _, [] => none
  | p :: ps, c :: cs => if p.toLower == c.toLower then ciDropPrefixList ps cs else none

/-- Consumes up to and including the first occurrence of the closing
character (the lazy `.*?` followed by the literal close in the source's
regexes); `none` when no close exists. -/
def dropToClose (close : Char) : List Char → Option (List Char)
  | [] => none
  | c :: cs => if c == close then some cs else dropToClose close cs

/-- Global substitution of `prefixPat … close` by the empty string, the
semantics of `re.sub` with a lazy body: scanning left to right, each
position where the literal prefix matches and a close follows is replaced
by skipping to just past the first close.  Fuel is the input length, which
every recursive call strictly decreases, so it never runs out. -/
def stripDelimAux (prefixPat : List Char) (close : Char) : Nat → List Char → List Char
  | 0, l => l
  | _ + 1, [] => []
  | fuel + 1, c :: cs =>
      match ciDropPrefixList prefixPat (c :: cs) with
      | some r =>
          match dropToClose close r with
          | some rest => stripDelimAux prefixPat close fuel rest
          | none => c :: stripDelimAux prefixPat close fuel cs
      | none => c :: stripDelimAux prefixPat close fuel cs

/-- `re.sub(r"\(Official.*?\)", "", stem, flags=re.IGNORECASE)`. -/
def stripOfficialParens (l : List Char) : List Char :=
  stripDelimAux "(official".toList ')' l.length l

/-- `re.sub(r"\[.*?\]", "", stem)`. -/
def stripBrackets (l : List Char) : List Char :=
  stripDelimAux "[".toList ']' l.length l

/-- The separator class of `_SEPARATORS = re.compile(r"\s*[-–—]\s*")`. -/
def isDashSep (c : Char) : Bool :=
  c == '-' || c == '–' || c == '—'

/-- `_SEPARATORS.split(stem, maxsplit=1)`: the first regex match is the
first dash together with the whitespace runs around it; `none` when the
input has no dash. -/
def splitFirstDash (l : List Char) : Option (List Char × List Char) :=
  match l.findIdx? isDashSep with
  | none => none
  | some i =>
      let before := ((l.take i).reverse.dropWhile Char.isWhitespace).reverse
      let after := (l.drop (i + 1)).dropWhile Char.isWhitespace
      some (before, after)

/-- `identify_from_filename(file_name)`. -/
def identifyFromFilename (fileName : Option String) : Option TrackInfo :=
  if !truthyS fileName then none
  else
    let stem0 := pathStem (fileName.getD "")
    let stem1 := pyStrip (stripOfficialParens stem0)
    let stem := pyStrip (stripBrackets stem1)
    let fallback : Option TrackInfo :=
      if stem != [] then some ⟨none, ⟨stem⟩, "filename"⟩ else none
    match splitFirstDash stem with
    | some (a, t) =>
        let artist := pyStrip a
        let title := pyStrip t
        if artist != [] && title != [] then
          some ⟨some ⟨artist⟩, ⟨title⟩, "filename"⟩
        else fallback
    | none => fallback

/-- `identify_from_tg_metadata(performer, title)`. -/
def identifyFromTgMetadata (performer title : Option String) : Option TrackInfo :=
  if truthyS title then some ⟨performer, title.getD "", "tg_metadata"⟩ else none

/-- `identify_track(file_path, tg_performer, tg_title, file_name)`; the
tag reading of `identify_from_id3` inspects the downloaded file's bytes
and is therefore an oracle `id3 : path → Option TrackInfo` (it swallows
its own exceptions and returns `None` on any parse failure). -/
def identifyTrack (id3 : String → Option TrackInfo)
    (filePath tgPerformer tgTitle fileName : Option String) : Option TrackInfo :=
  match (if truthyS filePath then id3 (filePath.getD "") else none) with
  | some r => some r
  | none =>
      match identifyFromTgMetadata tgPerformer tgTitle with
      | some r => some r
      | none => identifyFromFilename fileName

/-! ## External adapter data (src/navaar/ytmusic/client.py, spotify/client.py) -/

/-- One playlist item returned by `YTMusicClient.get_playlist_tracks` (or
a search result): `videoId`, `title`, first artist name when the `artists`
list is non-empty, `setVideoId` and `duration_seconds` when the keys are
present.  `Option` models key presence in the dict. -/
structure YtItem where
  videoId : String
  title : Option String := none
  artistName : Option String := none
  setVideoId : Option String := none
  duration_seconds : Option Nat := none
  deriving Repr, DecidableEq

/-- `YTMusicClient.is_in_playlist(video_id, playlist_tracks)`:
`any(t.get("videoId") == video_id for t in playlist_tracks)`. -/
def ytIsInPlaylist (vid : String) (playlist : List YtItem) : Bool :=
  playlist.any (fun t => t.videoId == vid)

/-- One playlist item returned by `SpotifyClient.get_playlist_tracks`. -/
structure SpItem where
  id : String
  name : Option String := none
  artists : List String := []
  duration_ms : Option Nat := none
  deriving Repr, DecidableEq

/-! ## Shape A worker: TgToYtSync (src/navaar/sync/tg_to_yt.py) -/

/-- External collaborators of `TgToYtSync`: the YT playlist fetched once
per cycle, the TG file download, the ID3 tag reader of the downloaded
file, the YT search, and the playlist insertion.  Each adapter call may
raise (`Except`), which is how an unexpected per-item exception enters the
cycle. -/
structure TgYtEnv where
  ytPlaylist : List YtItem
  downloadFile : String → Except PyErr String
  id3 : String → Option TrackInfo
  findBestMatch : Option String → String → Except PyErr (Option YtItem)
  addToPlaylist : String → Except PyErr Unit

/-- `TgToYtSync._process_track(track, playlist_tracks)`: identify, search,
dedup against the cycle's playlist snapshot, add, with the early returns
of the source; the returned `Except` is the exception escaping to the
per-item boundary of `process_pending`. -/
def tgToYtProcessTrack (env : TgYtEnv) (now : Nat) (db : DB) (t : Track) :
    DB × Except PyErr Unit :=
  let db := (updateTrack db t.id { status := some "identifying" }).1
  let dl : Except PyErr (Option String) :=
    if truthyS t.tg_file_id then (env.downloadFile (t.tg_file_id.getD "")).map some
    else .ok none
  match dl with
  | .error e => (db, .error e)
  | .ok localPath =>
  let info := identifyTrack env.id3 localPath t.artist (some t.title) localPath
  let db :=
    match info with
    | some i =>
        (updateTrack db t.id
          { artist := some (pyOr i.artist t.artist), title := some i.title,
            identification_method := some i.method, status := some "searching" }).1
    | none => (updateTrack db t.id { status := some "searching" }).1
  match getTrack db t.id with
  | none => (db, .error .attributeError)
  | some t2 =>
  match env.findBestMatch t2.artist t2.title with
  | .error e => (db, .error e)
  | .ok none =>
      let db := (markFailed db t.id "no_yt_match").1
      let db := logEvent db "no_yt_match" (some t.id) (some "tg_to_yt")
      (db, .ok ())
  | .ok (some m) =>
      let vid := m.videoId
      if ytIsInPlaylist vid env.ytPlaylist then
        let db := (markDuplicate db t.id).1
        let db := (updateTrack db t.id { yt_video_id := some vid }).1
        let db := logEvent db "duplicate_skipped" (some t.id) (some "tg_to_yt")
        (db, .ok ())
      else
        let db := (updateTrack db t.id { status := some "syncing" }).1
        match env.addToPlaylist vid with
        | .error e => (db, .error e)
        | .ok _ =>
            let db := (markSynced db t.id now { yt_video_id := some vid }).1
            let db := logEvent db "track_synced" (some t.id) (some "tg_to_yt")
            (db, .ok ())

/-- Result of one Shape A cycle: the database, the returned count, and
the ids attempted by the per-item loop in order. -/
structure AResult where
  db : DB
  processed : Nat
  trace : List Nat
  deriving Repr, DecidableEq

/-- The per-item loop of `TgToYtSync.process_pending`: `try` the track;
on success count it; on any exception `mark_failed(track.id,
"unexpected_error")`, append a `sync_failed` log row and continue. -/
def tgToYtLoop (env : TgYtEnv) (now : Nat) :
    List Track → DB → Nat → List Nat → AResult
  | [], db, n, tr => ⟨db, n, tr.reverse⟩
  | t :: rest, db, n, tr =>
      match tgToYtProcessTrack env now db t with
      | (db', .ok _) => tgToYtLoop env now rest db' (n + 1) (t.id :: tr)
      | (db', .error _) =>
          let db'' := (markFailed db' t.id "unexpected_error").1
          let db'' := logEvent db'' "sync_failed" (some t.id) (some "tg_to_yt")
          tgToYtLoop env now rest db'' n (t.id :: tr)

/-- `TgToYtSync.process_pending()`. -/
def tgToYtProcessPending (env : TgYtEnv) (now : Nat) (db : DB) : AResult :=
  tgToYtLoop env now (getPendingTracks db "tg_to_yt") db 0 []

/-! ## Shape A worker: SpToYtSync (src/navaar/sync/sp_to_yt.py) -/

/-- External collaborators of `SpToYtSync`: the YT playlist fetched once
per cycle, the YT search and the playlist insertion. -/
structure SpYtEnv where
  ytPlaylist : List YtItem
  findBestMatch : Option String → String → Except PyErr (Option YtItem)
  addToPlaylist : String → Except PyErr Unit

/-- `SpToYtSync._process_track(track, playlist_tracks)`. -/
def spToYtProcessTrack (env : SpYtEnv) (now : Nat) (db : DB) (t : Track) :
    DB × Except PyErr Unit :=
  let db := (updateTrack db t.id { status := some "searching" }).1
  match env.findBestMatch t.artist t.title with
  | .error e => (db, .error e)
  | .ok none =>
      let db := (markFailed db t.id "no_yt_match").1
      let db := logEvent db "no_yt_match" (some t.id) (some "sp_to_yt")
      (db, .ok ())
  | .ok (some m) =>
      let vid := m.videoId
      if ytIsInPlaylist vid env.ytPlaylist then
        let db := (markDuplicate db t.id).1
        let db := (updateTrack db t.id { yt_video_id := some vid }).1
        let db := logEvent db "duplicate_skipped" (some t.id) (some "sp_to_yt")
        (db, .ok ())
      else
        let db := (updateTrack db t.id { status := some "syncing" }).1
        match env.addToPlaylist vid with
        | .error e => (db, .error e)
        | .ok _ =>
            let db := (markSynced db t.id now { yt_video_id := some vid }).1
            let db := logEvent db "track_synced" (some t.id) (some "sp_to_yt")
            (db, .ok ())

/-- The per-item loop of `SpToYtSync.process_pending`. -/
def spToYtLoop (env : SpYtEnv) (now : Nat) :
    List Track → DB → Nat → List Nat → AResult
  | [], db, n, tr => ⟨db, n, tr.reverse⟩
  | t :: rest, db, n, tr =>
      match spToYtProcessTrack env now db t with
      | (db', .ok _) => spToYtLoop env now rest db' (n + 1) (t.id :: tr)
      | (db', .error _) =>
          let db'' := (markFailed db' t.id "unexpected_error").1
          let db'' := logEvent db'' "sync_failed" (some t.id) (some "sp_to_yt")
          spToYtLoop env now rest db'' n (t.id :: tr)

/-- `SpToYtSync.process_pending()`. -/
def spToYtProcessPending (env : SpYtEnv) (now : Nat) (db : DB) : AResult :=
  spToYtLoop env now (getPendingTracks db "sp_to_yt") db 0 []

/-! ## Shape B worker: YtToTgSync (src/navaar/sync/yt_to_tg.py) -/

/-- External collaborators of `YtToTgSync`: the source YT playlist fetched
at the start of the discovery phase, the audio downloader, and the TG
upload `send_audio(file_path, title, performer, duration, caption) →
message_id`. -/
structure YtTgEnv where
  ytPlaylist : List YtItem
  download : String → Except PyErr String
  sendAudio : String → String → Option String → Option Nat → String → Except PyErr Nat

/-- `[t["videoId"] for t in playlist_tracks if t.get("videoId")]`. -/
def ytCurrentIds (pl : List YtItem) : List String :=
  pl.filterMap (fun t => if t.videoId != "" then some t.videoId else none)

/-- `track_lookup = {t["videoId"]: t for t in playlist_tracks if
t.get("videoId")}` followed by `track_lookup.get(video_id, {})`: for
duplicate ids the later dict entry wins; the `{}` default is an item with
every key absent (its `videoId` field is never read by `_sync_track`). -/
def ytMetaOf (pl : List YtItem) (vid : String) : YtItem :=
  (((pl.filter (fun t => t.videoId != "")).reverse).find?
      (fun t => t.videoId == vid)).getD { videoId := "" }

/-- `YtToTgSync._retry_track(track)`: mark `syncing`, download the track's
own `yt_video_id` (the caller's gate guarantees it is a non-empty string
`v`), upload, `mark_synced` with the message id; each failure is recorded
with `download_failed:` / `upload_failed:` and re-raised. -/
def ytToTgRetryTrack (env : YtTgEnv) (now : Nat) (db : DB) (t : Track) (v : String) :
    DB × Except PyErr Unit :=
  let db := (updateTrack db t.id { status := some "syncing" }).1
  match env.download v with
  | .error e => ((markFailed db t.id ("download_failed: " ++ e.msg)).1, .error e)
  | .ok path =>
      match env.sendAudio path t.title t.artist t.duration_seconds
          ("Synced by Navaar | #" ++ toString t.id) with
      | .error e => ((markFailed db t.id ("upload_failed: " ++ e.msg)).1, .error e)
      | .ok mid =>
          ((markSynced db t.id now { tg_message_id := some mid }).1, .ok ())

/-- `YtToTgSync._sync_track(video_id, yt_meta)`: cross-service dedup by
`yt_video_id`, create the `pending` row, download, upload, `mark_synced`;
failures are recorded on the row, logged, and re-raised. -/
def ytToTgSyncTrack (env : YtTgEnv) (now : Nat) (db : DB) (vid : String) (meta : YtItem) :
    DB × Except PyErr Unit :=
  match getTrackByYtVideoId db vid with
  | .error e => (db, .error e)
  | .ok existing =>
  if (match existing with
      | some ex => ex.status == "synced" || ex.status == "duplicate"
      | none => false) then
    (db, .ok ())
  else
    let title := meta.title.getD vid
    let artist := meta.artistName
    let duration := meta.duration_seconds
    let (db, track) := createTrack db (fun i =>
      { id := i, direction := "yt_to_tg", status := "pending", title := title,
        artist := artist, yt_video_id := some vid, yt_set_video_id := meta.setVideoId,
        duration_seconds := duration, identification_method := some "yt_metadata" })
    let db := (updateTrack db track.id { status := some "syncing" }).1
    match env.download vid with
    | .error e =>
        let db := (markFailed db track.id ("download_failed: " ++ e.msg)).1
        let db := logEvent db "download_failed" (some track.id) (some "yt_to_tg")
        (db, .error e)
    | .ok path =>
        match env.sendAudio path title artist duration
            ("Synced by Navaar | #" ++ toString track.id) with
        | .error e =>
            let db := (markFailed db track.id ("upload_failed: " ++ e.msg)).1
            let db := logEvent db "upload_failed" (some track.id) (some "yt_to_tg")
            (db, .error e)
        | .ok mid =>
            let db := (markSynced db track.id now { tg_message_id := some mid }).1
            let db := logEvent db "track_synced" (some track.id) (some "yt_to_tg")
            (db, .ok ())

/-- Observable step of a Shape B cycle: a retry attempt entered for a
track id, a discovery item processed (successfully or not), or the final
snapshot write. -/
inductive BEvent where
  | retryAttempt (id : Nat)
  | newItem (extId : String) (ok : Bool)
  | snapWrite (ids : List String)
  deriving Repr, DecidableEq

/-- Result of one Shape B cycle: the database, `some count` when the
cycle returned normally and `none` when it raised, and the event trace in
execution order. -/
structure BResult where
  db : DB
  returned : Option Nat
  trace : List BEvent
  deriving Repr, DecidableEq

/-- Retry phase of `YtToTgSync.process_new_tracks`: tracks without a
truthy `yt_video_id` are skipped (`continue`); for the others
`_retry_track` runs under a `try` whose handler only logs and counts a
metric.  The trace accumulator is in reverse order. -/
def ytToTgRetryLoop (env : YtTgEnv) (now : Nat) :
    List Track → DB → Nat → List BEvent → DB × Nat × List BEvent
  | [], db, n, tr => (db, n, tr)
  | t :: rest, db, n, tr =>
      match t.yt_video_id with
      | none => ytToTgRetryLoop env now rest db n tr
      | some v =>
          if v == "" then ytToTgRetryLoop env now rest db n tr
          else
            match ytToTgRetryTrack env now db t v with
            | (db', .ok _) =>
                ytToTgRetryLoop env now rest db' (n + 1) (.retryAttempt t.id :: tr)
            | (db', .error _) =>
                ytToTgRetryLoop env now rest db' n (.retryAttempt t.id :: tr)

/-- Discovery phase of `YtToTgSync.process_new_tracks`: each new id runs
`_sync_track` under a `try` whose handler only logs and counts a metric. -/
def ytToTgNewLoop (env : YtTgEnv) (now : Nat) :
    List String → DB → Nat → List BEvent → DB × Nat × List BEvent
  | [], db, n, tr => (db, n, tr)
  | v :: rest, db, n, tr =>
      match ytToTgSyncTrack env now db v (ytMetaOf env.ytPlaylist v) with
      | (db', .ok _) => ytToTgNewLoop env now rest db' (n + 1) (.newItem v true :: tr)
      | (db', .error _) => ytToTgNewLoop env now rest db' n (.newItem v false :: tr)

/-- `YtToTgSync.process_new_tracks()`: retry phase, snapshot diff,
discovery phase, snapshot write, return the synced count. -/
def ytToTgProcessNewTracks (env : YtTgEnv) (now : Nat) (db : DB) : BResult :=
  let retries := getPendingTracks db "yt_to_tg"
  let (db, synced, tr) := ytToTgRetryLoop env now retries db 0 []
  let currentIds := ytCurrentIds env.ytPlaylist
  let prev := snapshotIds db "yt_playlist_snapshot"
  let newIds := currentIds.filter (fun v => !(prev.contains v))
  let (db, synced, tr) := ytToTgNewLoop env now newIds db synced tr
  let db := stateSetJson db "yt_playlist_snapshot" currentIds
  ⟨db, some synced, (BEvent.snapWrite currentIds :: tr).reverse⟩

/-! ## Shape B worker: SpToTgSync (src/navaar/sync/sp_to_tg.py)

Two calls in this worker hit members that the database layer does not
define: the retry gate reads `track.sp_track_id` (no such mapped
attribute on `Track`, see `models.py`) and `_sync_track` calls
`self._tracks.get_track_by_sp_track_id(...)` (no such method on
`TrackRepository`).  Both raise `AttributeError` in Python; the embedding
reproduces exactly that. -/

/-- `[t["id"] for t in playlist_tracks if t.get("id")]`. -/
def spCurrentIds (pl : List SpItem) : List String :=
  pl.filterMap (fun t => if t.id != "" then some t.id else none)

/-- `track_lookup.get(sp_track_id, {})` as in `ytMetaOf`. -/
def spMetaOf (pl : List SpItem) (sid : String) : SpItem :=
  (((pl.filter (fun t => t.id != "")).reverse).find? (fun t => t.id == sid)).getD { id := "" }

/-- `SpToTgSync._sync_track(sp_track_id, sp_meta)`: its first statement is
`existing = await self._tracks.get_track_by_sp_track_id(sp_track_id)`,
which raises `AttributeError` because `TrackRepository` has no such
method; were a value returned, a non-`synced`/`duplicate` result would
continue into `create_track(..., sp_track_id=sp_track_id, ...)`, which
raises `TypeError` because `Track` maps no `sp_track_id` column.  Either
way no row is written. -/
def spToTgSyncTrack (db : DB) (sid : String) (_meta : SpItem) : DB × Except PyErr Unit :=
  match getTrackBySpTrackId db sid with
  | .error e => (db, .error e)
  | .ok existing =>
      if (match existing with
          | some ex => ex.status == "synced" || ex.status == "duplicate"
          | none => false) then
        (db, .ok ())
      else
        (db, .error .typeError)

/-- Discovery phase of `SpToTgSync.process_new_tracks`, per-item `try` as
in the YT worker. -/
def spToTgNewLoop (pl : List SpItem) :
    List String → DB → Nat → List BEvent → DB × Nat × List BEvent
  | [], db, n, tr => (db, n, tr)
  | v :: rest, db, n, tr =>
      match spToTgSyncTrack db v (spMetaOf pl v) with
      | (db', .ok _) => spToTgNewLoop pl rest db' (n + 1) (.newItem v true :: tr)
      | (db', .error _) => spToTgNewLoop pl rest db' n (.newItem v false :: tr)

/-- `SpToTgSync.process_new_tracks()`: when any `sp_to_tg` row is pending,
the retry gate `if not track.sp_track_id:` raises `AttributeError` on the
first iteration — outside any `try` — so the cycle raises with no
database write; otherwise the discovery phase runs item by item and the
snapshot is written at the end. -/
def spToTgProcessNewTracks (db : DB) (spPlaylist : List SpItem) : BResult :=
  let retries := getPendingTracks db "sp_to_tg"
  match retries with
  | _ :: _ => ⟨db, none, []⟩
  | [] =>
      let currentIds := spCurrentIds spPlaylist
      let prev := snapshotIds db "sp_playlist_snapshot"
      let newIds := currentIds.filter (fun v => !(prev.contains v))
      let (db, synced, tr) := spToTgNewLoop spPlaylist newIds db 0 []
      let db := stateSetJson db "sp_playlist_snapshot" currentIds
      ⟨db, some synced, (BEvent.snapWrite currentIds :: tr).reverse⟩

/-! ## Wellformedness and frame lemmas for the repository operations -/

/-- Store invariant maintained by every operation: the rows sit in
strictly ascending id order (SQLite autoincrement in insertion order) and
every id is below the autoincrement counter. -/
def DB.wf (db : DB) : Prop :=
  (db.tracks.map (fun t => t.id)).Pairwise (· < ·) ∧
    ∀ t ∈ db.tracks, t.id < db.nextTrackId

@[simp] theorem applyUpd_id (u : Upd) (t : Track) : (applyUpd u t).id = t.id := rfl

theorem rowMap_find?_ne (l : List Track) (i j : Nat) (u : Upd) (h : j ≠ i) :
    (l.map (fun t => if t.id == i then applyUpd u t else t)).find? (fun t => t.id == j)
      = l.find? (fun t => t.id == j) := by
  induction l with
  | nil => rfl
  | cons t rest ih =>
      have hid : (if (t.id == i) then applyUpd u t else t).id = t.id := by
        by_cases hti : t.id = i <;> simp [hti]
      rw [List.map_cons, List.find?_cons, List.find?_cons, hid]
      by_cases htj : t.id = j
      · have hb : (t.id == j) = true := by simp [htj]
        have hti : t.id ≠ i := by rw [htj]; exact h
        have hfe : (if (t.id == i) then applyUpd u t else t) = t := by simp [hti]
        rw [hb, hfe]
      · have hb : (t.id == j) = false := by simp [htj]
        rw [hb]
        exact ih

theorem getTrack_updateTrack_ne (db : DB) (i j : Nat) (u : Upd) (h : j ≠ i) :
    getTrack (updateTrack db i u).1 j = getTrack db j := by
  unfold getTrack updateTrack
  exact rowMap_find?_ne db.tracks i j u h

theorem rowMap_find?_self (l : List Track) (i : Nat) (u : Upd) :
    (l.map (fun t => if t.id == i then applyUpd u t else t)).find? (fun t => t.id == i)
      = (l.find? (fun t => t.id == i)).map (applyUpd u) := by
  induction l with
  | nil => rfl
  | cons t rest ih =>
      have hid : (if (t.id == i) then applyUpd u t else t).id = t.id := by
        by_cases hti : t.id = i <;> simp [hti]
      rw [List.map_cons, List.find?_cons, List.find?_cons, hid]
      by_cases hti : t.id = i
      · have hb : (t.id == i) = true := by simp [hti]
        rw [hb]
        rfl
      · have hb : (t.id == i) = false := by simp [hti]
        rw [hb]
        exact ih

theorem getTrack_updateTrack_self (db : DB) (i : Nat) (u : Upd) :
    getTrack (updateTrack db i u).1 i = (getTrack db i).map (applyUpd u) := by
  unfold getTrack updateTrack
  exact rowMap_find?_self db.tracks i u

@[simp] theorem updateTrack_map_id (db : DB) (i : Nat) (u : Upd) :
    (updateTrack db i u).1.tracks.map (fun t => t.id) = db.tracks.map (fun t => t.id) := by
  unfold updateTrack
  simp only [List.map_map]
  refine List.map_congr_left (fun t _ => ?_)
  by_cases hti : t.id = i <;> simp [hti]

@[simp] theorem updateTrack_nextId (db : DB) (i : Nat) (u : Upd) :
    (updateTrack db i u).1.nextTrackId = db.nextTrackId := rfl

@[simp] theorem updateTrack_logs (db : DB) (i : Nat) (u : Upd) :
    (updateTrack db i u).1.logs = db.logs := rfl

@[simp] theorem updateTrack_syncState (db : DB) (i : Nat) (u : Upd) :
    (updateTrack db i u).1.syncState = db.syncState := rfl

@[simp] theorem logEvent_tracks (db : DB) (e : String) (tid : Option Nat) (d : Option String) :
    (logEvent db e tid d).tracks = db.tracks := rfl

@[simp] theorem logEvent_syncState (db : DB) (e : String) (tid : Option Nat) (d : Option String) :
    (logEvent db e tid d).syncState = db.syncState := rfl

@[simp] theorem logEvent_logs (db : DB) (e : String) (tid : Option Nat) (d : Option String) :
    (logEvent db e tid d).logs = db.logs ++ [⟨tid, e, d⟩] := rfl

@[simp] theorem getTrack_logEvent (db : DB) (e : String) (tid : Option Nat) (d : Option String)
    (j : Nat) : getTrack (logEvent db e tid d) j = getTrack db j := rfl

@[simp] theorem stateSet_tracks (db : DB) (k : String) (v : SVal) :
    (stateSet db k v).tracks = db.tracks := by
  unfold stateSet
  split <;> rfl

@[simp] theorem stateSet_logs (db : DB) (k : String) (v : SVal) :
    (stateSet db k v).logs = db.logs := by
  unfold stateSet
  split <;> rfl

@[simp] theorem getTrack_stateSet (db : DB) (k : String) (v : SVal) (j : Nat) :
    getTrack (stateSet db k v) j = getTrack db j := by
  unfold getTrack
  rw [stateSet_tracks]

theorem find?_map_kv (l : List (String × SVal)) (k : String) (v : SVal)
    (h : (l.find? (fun p => p.1 == k)).isSome) :
    (l.map (fun p => if p.1 == k then (k, v) else p)).find? (fun p => p.1 == k)
      = some (k, v) := by
  induction l with
  | nil => simp at h
  | cons p rest ih =>
      by_cases hk : p.1 = k
      · have hf : (if (p.1 == k) then (k, v) else p) = (k, v) := by simp [hk]
        rw [List.map_cons, hf, List.find?_cons]
        have hb : ((k, v).1 == k) = true := by simp
        rw [hb]
      · have hf : (if (p.1 == k) then (k, v) else p) = p := by simp [hk]
        have hb : (p.1 == k) = false := by simp [hk]
        have h' : (rest.find? (fun q => q.1 == k)).isSome := by
          have h2 := h
          rw [List.find?_cons, hb] at h2
          exact h2
        rw [List.map_cons, hf, List.find?_cons, hb]
        exact ih h'

theorem stateGet_stateSet_self (db : DB) (k : String) (v : SVal) :
    stateGet (stateSet db k v) k = some v := by
  unfold stateGet stateSet
  by_cases h : (db.syncState.find? (fun p => p.1 == k)).isSome
  · rw [if_pos h]
    dsimp only
    rw [find?_map_kv db.syncState k v h]
    rfl
  · rw [if_neg h]
    have hnone : db.syncState.find? (fun p => p.1 == k) = none := by
      cases hf : db.syncState.find? (fun p => p.1 == k) with
      | none => rfl
      | some p => rw [hf] at h; simp at h
    dsimp only
    rw [List.find?_append, hnone]
    simp

theorem getPendingTracks_sublist (db : DB) (d : String) :
    (getPendingTracks db d).Sublist db.tracks :=
  List.filter_sublist db.tracks

theorem wf_updateTrack (db : DB) (i : Nat) (u : Upd) (h : db.wf) :
    (updateTrack db i u).1.wf := by
  refine ⟨?_, ?_⟩
  · rw [updateTrack_map_id]
    exact h.1
  · intro t ht
    unfold updateTrack at ht
    dsimp only at ht
    rcases List.mem_map.mp ht with ⟨t0, ht0, heq⟩
    have hid : t.id = t0.id := by
      rw [← heq]; by_cases h0 : t0.id = i <;> simp [h0]
    rw [updateTrack_nextId, hid]
    exact h.2 t0 ht0

theorem wf_createTrack (db : DB) (mk : Nat → Track)
    (hmk : (mk db.nextTrackId).id = db.nextTrackId) (h : db.wf) :
    (createTrack db mk).1.wf := by
  refine ⟨?_, ?_⟩
  · unfold createTrack
    dsimp only
    rw [List.map_append, List.pairwise_append]
    refine ⟨h.1, by simp, ?_⟩
    intro x hx y hy
    simp only [List.map_cons, List.map_nil, List.mem_singleton] at hy
    rcases List.mem_map.mp hx with ⟨t0, ht0, heq⟩
    rw [hy, hmk, ← heq]
    exact h.2 t0 ht0
  · intro t ht
    unfold createTrack at ht ⊢
    dsimp only at ht ⊢
    rcases List.mem_append.mp ht with h1 | h1
    · exact Nat.lt_succ_of_lt (h.2 t h1)
    · rw [List.mem_singleton] at h1
      rw [h1, hmk]
      exact Nat.lt_succ_self _

/-! ## Claim C9 — the filename identification examples -/

/-- C9: the filename identification step maps the three spec examples to
`(Artist, Song, filename)`, `(Queen, Bohemian Rhapsody, filename)` and
`(no artist, some_random_track, filename)`: it strips the extension, the
parenthesised segments starting with "Official" and the bracketed
segments, splits on the first dash-like separator, and falls back to the
cleaned stem as title when the split gives no two non-empty parts. -/
theorem identifier_filename_examples :
    identifyFromFilename (some "Artist - Song (Official Video).mp3") =
        some ⟨some "Artist", "Song", "filename"⟩ ∧
      identifyFromFilename (some "Queen - Bohemian Rhapsody.mp3") =
        some ⟨some "Queen", "Bohemian Rhapsody", "filename"⟩ ∧
      identifyFromFilename (some "some_random_track.mp3") =
        some ⟨none, "some_random_track", "filename"⟩ := by
  refine ⟨?_, ?_, ?_⟩ <;> decide

/-! ## Claim C10 — mutating operations on an absent id -/

/-- C10: for a track id not present in the store, `update_track`,
`mark_synced`, `mark_failed`, `mark_duplicate` and `reset_for_retry`
return `None`, `delete_track` returns `False`, and the store is left
completely unchanged. -/
theorem absent_id_mutations_are_noops (db : DB) (i : Nat) (u : Upd)
    (reason : String) (now : Nat) (extra : Upd)
    (h : ∀ t ∈ db.tracks, t.id ≠ i) :
    updateTrack db i u = (db, none) ∧
      markSynced db i now extra = (db, none) ∧
      markFailed db i reason = (db, none) ∧
      markDuplicate db i = (db, none) ∧
      resetForRetry db i = (db, none) ∧
      deleteTrack db i = (db, false) := by
  have hget : getTrack db i = none := by
    apply List.find?_eq_none.mpr
    intro t ht
    simp [h t ht]
  have hupd : ∀ u' : Upd, updateTrack db i u' = (db, none) := by
    intro u'
    have hmap : db.tracks.map (fun t => if t.id == i then applyUpd u' t else t)
        = db.tracks := by
      have h2 : db.tracks.map (fun t => if t.id == i then applyUpd u' t else t)
          = db.tracks.map (fun t => t) :=
        List.map_congr_left (fun t ht => by simp [h t ht])
      rw [h2, List.map_id']
    unfold updateTrack
    rw [hmap]
    have hdb : ({ db with tracks := db.tracks } : DB) = db := rfl
    rw [hdb]
    show (db, getTrack db i) = (db, none)
    rw [hget]
  refine ⟨hupd u, hupd _, ?_, hupd _, hupd _, ?_⟩
  · unfold markFailed
    rw [hget]
  · unfold deleteTrack
    rw [hget]

/-- C10 witness: the operations evaluated on the empty store at id 1. -/
theorem absent_id_mutations_are_noops_witness :
    updateTrack {} 1 {} = ({}, none) ∧
      markSynced {} 1 0 {} = ({}, none) ∧
      markFailed {} 1 "r" = ({}, none) ∧
      markDuplicate {} 1 = ({}, none) ∧
      resetForRetry {} 1 = ({}, none) ∧
      deleteTrack {} 1 = ({}, false) :=
  absent_id_mutations_are_noops {} 1 {} "r" 0 {} (by intro t ht; cases ht)

/-! ## Claim C4 — the retry bound `retry_count ≤ max_retries` -/

/-- One failure/reset round on a track: the worker's `mark_failed`
followed by the operator's `reset_for_retry` (the `failed → retry_scheduled`
arc of the state machine). -/
def failResetRound (i : Nat) (reason : String) (db : DB) : DB :=
  (resetForRetry (markFailed db i reason).1 i).1

/-- Does the store hold a non-`synced` track with `retry_count` above
`max_retries` at this id — the situation claim C4 rules out? -/
def retryBoundViolated (db : DB) (i : Nat) : Bool :=
  match getTrack db i with
  | some t => t.status != "synced" && decide (t.max_retries < t.retry_count)
  | none => false

/-- C4 counterexample: a freshly created track (defaults `retry_count = 0`,
`max_retries = 3`) put through four failure/reset rounds ends with
`status = retry_scheduled` (not synced) and `retry_count = 4 > 3 =
max_retries`: the claimed invariant fails on a reachable operation
sequence, since `mark_failed` increments without any bound check. -/
theorem retry_bound_violated_concrete :
    retryBoundViolated
      ((failResetRound 1 "no_yt_match")^[4]
        (createTrack {} (fun i => { id := i, direction := "tg_to_yt", title := "A" })).1)
      1 = true := by
  decide

theorem failResetRound_row (i : Nat) (reason : String) (db : DB) (t : Track)
    (h : getTrack db i = some t) :
    getTrack (failResetRound i reason db) i =
      some { t with status := "retry_scheduled", failure_reason := none,
                    retry_count := t.retry_count + 1 } := by
  unfold failResetRound resetForRetry markFailed
  rw [h]
  rw [getTrack_updateTrack_self, getTrack_updateTrack_self, h]
  rfl

/-- C4 amended: nothing bounds the counter.  `mark_failed` adds exactly
one to `retry_count` and `reset_for_retry` keeps it, so `k` failure/reset
rounds on an existing track leave it with `retry_count` equal to the
initial value plus `k` while `max_retries` is unchanged — exceeding
`max_retries` as soon as `k` is large enough, with the track in the
non-synced `retry_scheduled` state for every `k ≥ 1`. -/
theorem retry_count_grows_unboundedly (db : DB) (i : Nat) (t : Track)
    (reason : String) (h : getTrack db i = some t) (k : Nat) :
    ∃ t', getTrack ((failResetRound i reason)^[k] db) i = some t' ∧
      t'.retry_count = t.retry_count + k ∧
      t'.max_retries = t.max_retries ∧
      (k = 0 ∨ t'.status = "retry_scheduled") := by
  induction k generalizing db t with
  | zero => exact ⟨t, h, rfl, rfl, Or.inl rfl⟩
  | succ k ih =>
      rw [Function.iterate_succ_apply]
      have hrow := failResetRound_row i reason db t h
      rcases ih (failResetRound i reason db)
          { t with status := "retry_scheduled", failure_reason := none,
                   retry_count := t.retry_count + 1 } hrow with
        ⟨t', ht', hrc, hmax, hst⟩
      refine ⟨t', ht', by simpa [Nat.add_assoc, Nat.add_comm 1 k] using hrc, hmax, Or.inr ?_⟩
      rcases hst with hk0 | hs
      · subst hk0
        have : t' = { t with status := "retry_scheduled", failure_reason := none,
                             retry_count := t.retry_count + 1 } := by
          rw [Function.iterate_zero_apply] at ht'
          rw [hrow] at ht'
          exact (Option.some.inj ht').symm
        rw [this]
      · exact hs

/-- C4 amended witness: four rounds on the fresh track of the
counterexample reach `retry_count = 4` with `max_retries = 3`. -/
theorem retry_count_grows_unboundedly_witness :
    ∃ t', getTrack ((failResetRound 1 "no_yt_match")^[4]
        (createTrack {} (fun i => { id := i, direction := "tg_to_yt", title := "A" })).1) 1
        = some t' ∧
      t'.retry_count = 0 + 4 ∧ t'.max_retries = 3 ∧
      (4 = 0 ∨ t'.status = "retry_scheduled") :=
  retry_count_grows_unboundedly
    (createTrack {} (fun i => { id := i, direction := "tg_to_yt", title := "A" })).1 1
    { id := 1, direction := "tg_to_yt", title := "A" } "no_yt_match" (by decide) 4

/-! ## Claim C7 — `synced_at` non-null iff `status = synced` -/

/-- The biconditional of claim C7 over the whole store. -/
def SyncedAtInv (db : DB) : Prop :=
  ∀ t ∈ db.tracks, (t.synced_at ≠ none ↔ t.status = "synced")

/-- Decidable rendering of `SyncedAtInv` used by the counterexample. -/
def syncedAtInvB (db : DB) : Bool :=
  db.tracks.all (fun t => t.synced_at.isSome == (t.status == "synced"))

/-- C7 counterexample: `mark_failed` applied to a synced track (a store
satisfying the biconditional) leaves `synced_at` set while moving `status`
to `failed`, so the operation does not preserve the biconditional. -/
theorem synced_at_iff_broken_by_mark_failed :
    syncedAtInvB
        (markSynced (createTrack {}
          (fun i => { id := i, direction := "tg_to_yt", title := "A" })).1 1 5 {}).1
      = true ∧
    syncedAtInvB
        (markFailed
          (markSynced (createTrack {}
            (fun i => { id := i, direction := "tg_to_yt", title := "A" })).1 1 5 {}).1
          1 "upload_failed: boom").1
      = false := by
  constructor <;> decide

theorem SyncedAtInv_updateTrack (db : DB) (i : Nat) (u : Upd)
    (hinv : SyncedAtInv db)
    (hok : ∀ t ∈ db.tracks, t.id = i →
      ((applyUpd u t).synced_at ≠ none ↔ (applyUpd u t).status = "synced")) :
    SyncedAtInv (updateTrack db i u).1 := by
  intro t' ht'
  unfold updateTrack at ht'
  dsimp only at ht'
  rcases List.mem_map.mp ht' with ⟨t0, ht0, heq⟩
  by_cases h0 : t0.id = i
  · have hf : (if (t0.id == i) then applyUpd u t0 else t0) = applyUpd u t0 := by simp [h0]
    rw [hf] at heq
    rw [← heq]
    exact hok t0 ht0 h0
  · have hf : (if (t0.id == i) then applyUpd u t0 else t0) = t0 := by simp [h0]
    rw [hf] at heq
    rw [← heq]
    exact hinv t0 ht0

/-- C7 amended: the biconditional `synced_at ≠ null ↔ status = synced` is
established by `mark_synced` for any extra columns, preserved by
`mark_failed` and `reset_for_retry` whenever the rows at the target id are
not `synced`, and preserved by `reset_all_failed` unconditionally; applied
to a `synced` track, `mark_failed` and `reset_for_retry` break it because
neither clears `synced_at` (and a general `update_track` preserves it only
when its own field writes do). -/
theorem synced_at_iff_preserved_on_unsynced (db : DB) (i : Nat) (now : Nat)
    (extra : Upd) (reason : String) (d : Option String) (hinv : SyncedAtInv db) :
    SyncedAtInv (markSynced db i now extra).1 ∧
      ((∀ t ∈ db.tracks, t.id = i → t.status ≠ "synced") →
        SyncedAtInv (markFailed db i reason).1) ∧
      ((∀ t ∈ db.tracks, t.id = i → t.status ≠ "synced") →
        SyncedAtInv (resetForRetry db i).1) ∧
      SyncedAtInv (resetAllFailed db d).1 := by
  have hnull : ∀ t ∈ db.tracks, t.status ≠ "synced" → t.synced_at = none := by
    intro t ht hs
    by_contra hne
    exact hs ((hinv t ht).mp hne)
  refine ⟨?_, ?_, ?_, ?_⟩
  · exact SyncedAtInv_updateTrack db i _ hinv (fun t _ _ => by simp [applyUpd])
  · intro hun
    unfold markFailed
    cases hg : getTrack db i with
    | none => exact hinv
    | some t0 =>
        apply SyncedAtInv_updateTrack db i _ hinv
        intro t ht hid
        have hs := hun t ht hid
        have h0 := hnull t ht hs
        simp [applyUpd, h0]
  · intro hun
    apply SyncedAtInv_updateTrack db i _ hinv
    intro t ht hid
    have hs := hun t ht hid
    have h0 := hnull t ht hs
    simp [applyUpd, h0]
  · intro t' ht'
    unfold resetAllFailed at ht'
    dsimp only at ht'
    rcases List.mem_map.mp ht' with ⟨t0, ht0, heq⟩
    by_cases hhit : failedHit d t0 = true
    · rw [if_pos hhit] at heq
      have hs : t0.status ≠ "synced" := by
        have hst : t0.status = "failed" := by
          unfold failedHit at hhit
          have h1 : (t0.status == "failed") = true := by
            cases h2 : (t0.status == "failed") with
            | true => rfl
            | false => rw [h2] at hhit; simp at hhit
          simpa using h1
        rw [hst]
        decide
      have h0 := hnull t0 ht0 hs
      rw [← heq]
      simp [h0]
    · rw [if_neg hhit] at heq
      rw [← heq]
      exact hinv t0 ht0

/-- C7 amended witness: the preservation statement evaluated on a
one-track pending store. -/
theorem synced_at_iff_preserved_on_unsynced_witness :
    SyncedAtInv (markSynced
        (createTrack {} (fun i => { id := i, direction := "tg_to_yt", title := "A" })).1
        1 7 {}).1 ∧
      ((∀ t ∈ (createTrack {}
            (fun i => { id := i, direction := "tg_to_yt", title := "A" })).1.tracks,
          t.id = 1 → t.status ≠ "synced") →
        SyncedAtInv (markFailed
          (createTrack {} (fun i => { id := i, direction := "tg_to_yt", title := "A" })).1
          1 "no_yt_match").1) ∧
      ((∀ t ∈ (createTrack {}
            (fun i => { id := i, direction := "tg_to_yt", title := "A" })).1.tracks,
          t.id = 1 → t.status ≠ "synced") →
        SyncedAtInv (resetForRetry
          (createTrack {} (fun i => { id := i, direction := "tg_to_yt", title := "A" })).1
          1).1) ∧
      SyncedAtInv (resetAllFailed
        (createTrack {} (fun i => { id := i, direction := "tg_to_yt", title := "A" })).1
        none).1 :=
  synced_at_iff_preserved_on_unsynced
    (createTrack {} (fun i => { id := i, direction := "tg_to_yt", title := "A" })).1
    1 7 {} "no_yt_match" none (by unfold SyncedAtInv; decide)

/-! ## Claim C1 — the `get by sp_track_id` lookup of the track store -/

/-- C1: evaluating the embedded `sp_to_tg` discovery phase on the failing
input of `tests/unit/test_sp_to_tg.py::test_new_track_synced` (snapshot
`["sp1"]`, source playlist `[sp1, sp2]`, no pending rows): the dedup
lookup `get_track_by_sp_track_id` does not exist on `TrackRepository`, so
processing the new id `sp2` errors (`ok := false` in the trace), no track
row is created and the cycle returns 0 — where the test asserts a created,
synced track with `tg_message_id = 42`.  The repository layer is missing
the lookup that its own callers and tests require. -/
theorem sp_to_tg_dedup_lookup_errors :
    spToTgProcessNewTracks (stateSetJson {} "sp_playlist_snapshot" ["sp1"])
        [{ id := "sp1", name := some "Song One", artists := ["Artist A"],
           duration_ms := some 180000 },
         { id := "sp2", name := some "Song Two", artists := ["Artist B"],
           duration_ms := some 240000 }] =
      ⟨{ syncState := [("sp_playlist_snapshot", SVal.jlist ["sp1", "sp2"])] }, some 0,
       [.newItem "sp2" false, .snapWrite ["sp1", "sp2"]]⟩ := by
  decide

/-! ## Claim C8 — pending tracks are iterated in ascending id order -/

theorem tgToYtLoop_trace (env : TgYtEnv) (now : Nat) :
    ∀ (l : List Track) (db : DB) (n : Nat) (tr : List Nat),
      (tgToYtLoop env now l db n tr).trace = tr.reverse ++ l.map (fun t => t.id) := by
  intro l
  induction l with
  | nil => intro db n tr; simp [tgToYtLoop]
  | cons t rest ih =>
      intro db n tr
      unfold tgToYtLoop
      rcases hres : tgToYtProcessTrack env now db t with ⟨db', r⟩
      cases r with
      | error e =>
          rw [ih]
          simp
      | ok u =>
          rw [ih]
          simp

theorem spToYtLoop_trace (env : SpYtEnv) (now : Nat) :
    ∀ (l : List Track) (db : DB) (n : Nat) (tr : List Nat),
      (spToYtLoop env now l db n tr).trace = tr.reverse ++ l.map (fun t => t.id) := by
  intro l
  induction l with
  | nil => intro db n tr; simp [spToYtLoop]
  | cons t rest ih =>
      intro db n tr
      unfold spToYtLoop
      rcases hres : spToYtProcessTrack env now db t with ⟨db', r⟩
      cases r with
      | error e =>
          rw [ih]
          simp
      | ok u =>
          rw [ih]
          simp

theorem tgToYtProcessPending_trace (env : TgYtEnv) (now : Nat) (db : DB) :
    (tgToYtProcessPending env now db).trace
      = (getPendingTracks db "tg_to_yt").map (fun t => t.id) := by
  unfold tgToYtProcessPending
  rw [tgToYtLoop_trace]
  simp

theorem spToYtProcessPending_trace (env : SpYtEnv) (now : Nat) (db : DB) :
    (spToYtProcessPending env now db).trace
      = (getPendingTracks db "sp_to_yt").map (fun t => t.id) := by
  unfold spToYtProcessPending
  rw [spToYtLoop_trace]
  simp

/-- C8: over a wellformed store (rows in ascending autoincrement id
order), the pending query of any direction returns its rows sorted by
strictly ascending id, and the per-item loops of the Shape A workers
attempt exactly that sequence in that order. -/
theorem pending_iteration_in_ascending_id_order (db : DB) (d : String)
    (envA : TgYtEnv) (envS : SpYtEnv) (nowA nowS : Nat) (h : db.wf) :
    ((getPendingTracks db d).map (fun t => t.id)).Pairwise (· < ·) ∧
      (tgToYtProcessPending envA nowA db).trace
        = (getPendingTracks db "tg_to_yt").map (fun t => t.id) ∧
      (spToYtProcessPending envS nowS db).trace
        = (getPendingTracks db "sp_to_yt").map (fun t => t.id) := by
  refine ⟨?_, tgToYtProcessPending_trace envA nowA db, spToYtProcessPending_trace envS nowS db⟩
  exact List.Pairwise.sublist (List.Sublist.map _ (getPendingTracks_sublist db d)) h.1

/-- C8 witness: a two-row pending store iterated by both workers. -/
theorem pending_iteration_in_ascending_id_order_witness :
    ((getPendingTracks
        (createTrack (createTrack {}
            (fun i => { id := i, direction := "tg_to_yt", title := "A" })).1
          (fun i => { id := i, direction := "tg_to_yt", title := "B",
                      status := "retry_scheduled" })).1 "tg_to_yt").map
        (fun t => t.id)).Pairwise (· < ·) ∧
      (tgToYtProcessPending
          { ytPlaylist := [], downloadFile := fun _ => .ok "p", id3 := fun _ => none,
            findBestMatch := fun _ _ => .ok none, addToPlaylist := fun _ => .ok () } 0
          (createTrack (createTrack {}
              (fun i => { id := i, direction := "tg_to_yt", title := "A" })).1
            (fun i => { id := i, direction := "tg_to_yt", title := "B",
                        status := "retry_scheduled" })).1).trace
        = (getPendingTracks
            (createTrack (createTrack {}
                (fun i => { id := i, direction := "tg_to_yt", title := "A" })).1
              (fun i => { id := i, direction := "tg_to_yt", title := "B",
                          status := "retry_scheduled" })).1 "tg_to_yt").map (fun t => t.id) ∧
      (spToYtProcessPending
          { ytPlaylist := [], findBestMatch := fun _ _ => .ok none,
            addToPlaylist := fun _ => .ok () } 0
          (createTrack (createTrack {}
              (fun i => { id := i, direction := "tg_to_yt", title := "A" })).1
            (fun i => { id := i, direction := "tg_to_yt", title := "B",
                        status := "retry_scheduled" })).1).trace
        = (getPendingTracks
            (createTrack (createTrack {}
                (fun i => { id := i, direction := "tg_to_yt", title := "A" })).1
              (fun i => { id := i, direction := "tg_to_yt", title := "B",
                          status := "retry_scheduled" })).1 "sp_to_yt").map (fun t => t.id) :=
  pending_iteration_in_ascending_id_order
    (createTrack (createTrack {}
        (fun i => { id := i, direction := "tg_to_yt", title := "A" })).1
      (fun i => { id := i, direction := "tg_to_yt", title := "B",
                  status := "retry_scheduled" })).1
    "tg_to_yt"
    { ytPlaylist := [], downloadFile := fun _ => .ok "p", id3 := fun _ => none,
      findBestMatch := fun _ _ => .ok none, addToPlaylist := fun _ => .ok () }
    { ytPlaylist := [], findBestMatch := fun _ _ => .ok none,
      addToPlaylist := fun _ => .ok () }
    0 0 (by unfold DB.wf; refine ⟨?_, ?_⟩ <;> decide)

/-! ## Claim C6 — the gate of the Shape B retry phase -/

theorem ytToTgRetryLoop_attempt_mem (env : YtTgEnv) (now : Nat) :
    ∀ (l : List Track) (db : DB) (n : Nat) (tr : List BEvent) (j : Nat),
      (BEvent.retryAttempt j ∈ (ytToTgRetryLoop env now l db n tr).2.2) ↔
        (BEvent.retryAttempt j ∈ tr ∨
          ∃ t ∈ l, t.id = j ∧ truthyS t.yt_video_id = true) := by
  intro l
  induction l with
  | nil => intro db n tr j; simp [ytToTgRetryLoop]
  | cons t rest ih =>
      intro db n tr j
      unfold ytToTgRetryLoop
      cases hv : t.yt_video_id with
      | none =>
          rw [ih]
          simp [hv, truthyS]
      | some v =>
          dsimp only
          by_cases hve : v == ""
          · rw [if_pos hve]
            rw [ih]
            have hvt : truthyS t.yt_video_id = false := by
              rw [hv]
              unfold truthyS
              simpa using hve
            simp [hvt]
          · rw [if_neg hve]
            have hvt : truthyS t.yt_video_id = true := by
              rw [hv]
              unfold truthyS
              simpa using hve
            rcases hres : ytToTgRetryTrack env now db t v with ⟨db', r⟩
            cases r with
            | error e =>
                rw [ih]
                simp only [List.mem_cons, BEvent.retryAttempt.injEq, hvt,
                  List.mem_cons]
                constructor
                · rintro ((hj | htr) | hex)
                  · exact Or.inr ⟨t, Or.inl rfl, hj.symm, hvt⟩
                  · exact Or.inl htr
                  · rcases hex with ⟨t', ht', hj, htt⟩
                    exact Or.inr ⟨t', Or.inr ht', hj, htt⟩
                · rintro (htr | ⟨t', (rfl | ht'), hj, htt⟩)
                  · exact Or.inl (Or.inr htr)
                  · exact Or.inl (Or.inl hj.symm)
                  · exact Or.inr ⟨t', ht', hj, htt⟩
            | ok u =>
                rw [ih]
                simp only [List.mem_cons, BEvent.retryAttempt.injEq, hvt,
                  List.mem_cons]
                constructor
                · rintro ((hj | htr) | hex)
                  · exact Or.inr ⟨t, Or.inl rfl, hj.symm, hvt⟩
                  · exact Or.inl htr
                  · rcases hex with ⟨t', ht', hj, htt⟩
                    exact Or.inr ⟨t', Or.inr ht', hj, htt⟩
                · rintro (htr | ⟨t', (rfl | ht'), hj, htt⟩)
                  · exact Or.inl (Or.inr htr)
                  · exact Or.inl (Or.inl hj.symm)
                  · exact Or.inr ⟨t', ht', hj, htt⟩

theorem ytToTgNewLoop_attempt_mem (env : YtTgEnv) (now : Nat) :
    ∀ (l : List String) (db : DB) (n : Nat) (tr : List BEvent) (j : Nat),
      (BEvent.retryAttempt j ∈ (ytToTgNewLoop env now l db n tr).2.2) ↔
        BEvent.retryAttempt j ∈ tr := by
  intro l
  induction l with
  | nil => intro db n tr j; simp [ytToTgNewLoop]
  | cons v rest ih =>
      intro db n tr j
      unfold ytToTgNewLoop
      rcases hres : ytToTgSyncTrack env now db v (ytMetaOf env.ytPlaylist v) with ⟨db', r⟩
      cases r with
      | error e => rw [ih]; simp
      | ok u => rw [ih]; simp

theorem ytToTg_attempt_iff (env : YtTgEnv) (now : Nat) (db : DB) (j : Nat) :
    (BEvent.retryAttempt j ∈ (ytToTgProcessNewTracks env now db).trace) ↔
      ∃ t ∈ getPendingTracks db "yt_to_tg", t.id = j ∧ truthyS t.yt_video_id = true := by
  unfold ytToTgProcessNewTracks
  rcases h1 : ytToTgRetryLoop env now (getPendingTracks db "yt_to_tg") db 0 []
    with ⟨db1, n1, tr1⟩
  rcases h2 : ytToTgNewLoop env now
      ((ytCurrentIds env.ytPlaylist).filter
        (fun v => !((snapshotIds db1 "yt_playlist_snapshot").contains v)))
      db1 n1 tr1 with ⟨db2, n2, tr2⟩
  dsimp only
  rw [h1]
  dsimp only
  rw [h2]
  dsimp only
  rw [List.mem_reverse, List.mem_cons]
  have e2 := ytToTgNewLoop_attempt_mem env now
    ((ytCurrentIds env.ytPlaylist).filter
      (fun v => !((snapshotIds db1 "yt_playlist_snapshot").contains v)))
    db1 n1 tr1 j
  rw [h2] at e2
  have e1 := ytToTgRetryLoop_attempt_mem env now (getPendingTracks db "yt_to_tg") db 0 [] j
  rw [h1] at e1
  dsimp only at e2 e1
  constructor
  · rintro (habs | htr)
    · exact BEvent.noConfusion habs
    · exact (e1.mp (e2.mp htr)).resolve_left (List.not_mem_nil _)
  · intro hex
    exact Or.inr (e2.mpr (e1.mpr (Or.inr hex)))

/-- C6 counterexample: a pending `yt_to_tg` track with a recorded TG-side
handle (`tg_message_id = 99`) but no `yt_video_id` is NOT attempted in the
retry phase — the cycle's trace holds only the snapshot write and the row
stays `pending` — although the claim's gate ("a recorded TG-side handle")
says it must be attempted. -/
theorem retry_gate_ignores_tg_handle :
    ((getTrack (createTrack {}
          (fun i => { id := i, direction := "yt_to_tg", title := "X",
                      tg_message_id := some 99 })).1 1).map
        (fun t => (t.status, t.tg_message_id, t.yt_video_id)))
        = some ("pending", some 99, none) ∧
      (ytToTgProcessNewTracks
          { ytPlaylist := [], download := fun _ => .ok "p",
            sendAudio := fun _ _ _ _ _ => .ok 7 } 0
          (createTrack {}
            (fun i => { id := i, direction := "yt_to_tg", title := "X",
                        tg_message_id := some 99 })).1).trace
        = [.snapWrite []] ∧
      ((getTrack (ytToTgProcessNewTracks
            { ytPlaylist := [], download := fun _ => .ok "p",
              sendAudio := fun _ _ _ _ _ => .ok 7 } 0
            (createTrack {}
              (fun i => { id := i, direction := "yt_to_tg", title := "X",
                          tg_message_id := some 99 })).1).db 1).map (fun t => t.status))
        = some "pending" := by
  refine ⟨?_, ?_, ?_⟩ <;> decide

/-- C6 amended: the retry-phase gate is the recorded source-side external
id, not a target-side handle: a pending or retry_scheduled `yt_to_tg`
track is attempted iff its (source-side) `yt_video_id` is a non-empty
string.  For `sp_to_tg` the gate reads `track.sp_track_id`, an attribute
the `Track` model does not define, so whenever any `sp_to_tg` track is
pending the cycle raises before attempting anything and its trace is
empty. -/
theorem retry_gate_is_source_handle (env : YtTgEnv) (now : Nat) (db : DB)
    (t : Track) (h : db.wf) (ht : t ∈ getPendingTracks db "yt_to_tg")
    (db2 : DB) (pl : List SpItem) (h2 : getPendingTracks db2 "sp_to_tg" ≠ []) :
    ((BEvent.retryAttempt t.id ∈ (ytToTgProcessNewTracks env now db).trace) ↔
        truthyS t.yt_video_id = true) ∧
      (spToTgProcessNewTracks db2 pl).returned = none ∧
      (spToTgProcessNewTracks db2 pl).trace = [] := by
  have hsp : spToTgProcessNewTracks db2 pl = ⟨db2, none, []⟩ := by
    unfold spToTgProcessNewTracks
    cases hr : getPendingTracks db2 "sp_to_tg" with
    | nil => exact absurd hr h2
    | cons a l => rfl
  refine ⟨?_, by rw [hsp], by rw [hsp]⟩
  rw [ytToTg_attempt_iff]
  constructor
  · rintro ⟨t', ht', hid, htt⟩
    have hnd : ((getPendingTracks db "yt_to_tg").map (fun t => t.id)).Nodup := by
      have hp : ((getPendingTracks db "yt_to_tg").map (fun t => t.id)).Pairwise (· < ·) :=
        List.Pairwise.sublist
          (List.Sublist.map _ (getPendingTracks_sublist db "yt_to_tg")) h.1
      exact hp.imp Nat.ne_of_lt
    have : t' = t := List.inj_on_of_nodup_map hnd ht' ht hid
    rw [← this]
    exact htt
  · intro htt
    exact ⟨t, ht, rfl, htt⟩

/-- C6 amended witness: a pending `yt_to_tg` track with `yt_video_id`
recorded is attempted, and a pending `sp_to_tg` track makes that cycle
raise. -/
theorem retry_gate_is_source_handle_witness :
    ((BEvent.retryAttempt 1 ∈ (ytToTgProcessNewTracks
          { ytPlaylist := [], download := fun _ => .ok "p",
            sendAudio := fun _ _ _ _ _ => .ok 7 } 0
          (createTrack {}
            (fun i => { id := i, direction := "yt_to_tg", title := "X",
                        yt_video_id := some "v1" })).1).trace) ↔
        truthyS (some "v1") = true) ∧
      (spToTgProcessNewTracks
          (createTrack {}
            (fun i => { id := i, direction := "sp_to_tg", title := "Y" })).1
          []).returned = none ∧
      (spToTgProcessNewTracks
          (createTrack {}
            (fun i => { id := i, direction := "sp_to_tg", title := "Y" })).1
          []).trace = [] := by
  have h := retry_gate_is_source_handle
    { ytPlaylist := [], download := fun _ => .ok "p",
      sendAudio := fun _ _ _ _ _ => .ok 7 } 0
    (createTrack {}
      (fun i => { id := i, direction := "yt_to_tg", title := "X",
                  yt_video_id := some "v1" })).1
    { id := 1, direction := "yt_to_tg", title := "X", yt_video_id := some "v1" }
    (by unfold DB.wf; refine ⟨?_, ?_⟩ <;> decide)
    (by decide)
    (createTrack {}
      (fun i => { id := i, direction := "sp_to_tg", title := "Y" })).1
    [] (by decide)
  exact h

/-! ## Claims C2/C3 — snapshot write-after-process and idempotent replay -/

theorem markFailed_map_id (db : DB) (i : Nat) (r : String) :
    ((markFailed db i r).1).tracks.map (fun t => t.id)
      = db.tracks.map (fun t => t.id) := by
  unfold markFailed
  cases hg : getTrack db i with
  | none => rfl
  | some t => exact updateTrack_map_id db i _

theorem markFailed_syncState (db : DB) (i : Nat) (r : String) :
    ((markFailed db i r).1).syncState = db.syncState := by
  unfold markFailed
  cases hg : getTrack db i with
  | none => rfl
  | some t => rfl

theorem ytToTgRetryTrack_map_id (env : YtTgEnv) (now : Nat) (db : DB) (t : Track)
    (v : String) :
    ((ytToTgRetryTrack env now db t v).1).tracks.map (fun t => t.id)
      = db.tracks.map (fun t => t.id) := by
  unfold ytToTgRetryTrack markSynced
  cases hd : env.download v with
  | error e =>
      dsimp only
      rw [markFailed_map_id, updateTrack_map_id]
  | ok path =>
      dsimp only
      cases hs : env.sendAudio path t.title t.artist t.duration_seconds
          ("Synced by Navaar | #" ++ toString t.id) with
      | error e =>
          dsimp only
          rw [markFailed_map_id, updateTrack_map_id]
      | ok mid =>
          dsimp only
          rw [updateTrack_map_id, updateTrack_map_id]

theorem ytToTgRetryTrack_syncState (env : YtTgEnv) (now : Nat) (db : DB) (t : Track)
    (v : String) :
    ((ytToTgRetryTrack env now db t v).1).syncState = db.syncState := by
  unfold ytToTgRetryTrack markSynced
  cases hd : env.download v with
  | error e =>
      dsimp only
      rw [markFailed_syncState, updateTrack_syncState]
  | ok path =>
      dsimp only
      cases hs : env.sendAudio path t.title t.artist t.duration_seconds
          ("Synced by Navaar | #" ++ toString t.id) with
      | error e =>
          dsimp only
          rw [markFailed_syncState, updateTrack_syncState]
      | ok mid =>
          dsimp only
          rw [updateTrack_syncState, updateTrack_syncState]

theorem ytToTgRetryLoop_map_id (env : YtTgEnv) (now : Nat) :
    ∀ (l : List Track) (db : DB) (n : Nat) (tr : List BEvent),
      ((ytToTgRetryLoop env now l db n tr).1).tracks.map (fun t => t.id)
        = db.tracks.map (fun t => t.id) := by
  intro l
  induction l with
  | nil => intro db n tr; rfl
  | cons t rest ih =>
      intro db n tr
      unfold ytToTgRetryLoop
      cases hv : t.yt_video_id with
      | none => exact ih db n tr
      | some v =>
          dsimp only
          by_cases hve : v == ""
          · rw [if_pos hve]
            exact ih db n tr
          · rw [if_neg hve]
            rcases hres : ytToTgRetryTrack env now db t v with ⟨db', r⟩
            have hpres : db'.tracks.map (fun t => t.id) = db.tracks.map (fun t => t.id) := by
              have := ytToTgRetryTrack_map_id env now db t v
              rw [hres] at this
              exact this
            cases r with
            | error e => rw [ih]; exact hpres
            | ok u => rw [ih]; exact hpres

theorem ytToTgRetryLoop_syncState (env : YtTgEnv) (now : Nat) :
    ∀ (l : List Track) (db : DB) (n : Nat) (tr : List BEvent),
      ((ytToTgRetryLoop env now l db n tr).1).syncState = db.syncState := by
  intro l
  induction l with
  | nil => intro db n tr; rfl
  | cons t rest ih =>
      intro db n tr
      unfold ytToTgRetryLoop
      cases hv : t.yt_video_id with
      | none => exact ih db n tr
      | some v =>
          dsimp only
          by_cases hve : v == ""
          · rw [if_pos hve]
            exact ih db n tr
          · rw [if_neg hve]
            rcases hres : ytToTgRetryTrack env now db t v with ⟨db', r⟩
            have hpres : db'.syncState = db.syncState := by
              have := ytToTgRetryTrack_syncState env now db t v
              rw [hres] at this
              exact this
            cases r with
            | error e => rw [ih]; exact hpres
            | ok u => rw [ih]; exact hpres

theorem ytToTg_final_snapshot (env : YtTgEnv) (now : Nat) (db : DB) :
    stateGet (ytToTgProcessNewTracks env now db).db "yt_playlist_snapshot"
      = some (.jlist (ytCurrentIds env.ytPlaylist)) := by
  unfold ytToTgProcessNewTracks stateSetJson
  exact stateGet_stateSet_self _ _ _

theorem spToTg_retries_empty_of_some (db : DB) (pl : List SpItem) (k : Nat)
    (h : (spToTgProcessNewTracks db pl).returned = some k) :
    getPendingTracks db "sp_to_tg" = [] := by
  unfold spToTgProcessNewTracks at h
  cases hr : getPendingTracks db "sp_to_tg" with
  | nil => rfl
  | cons a l =>
      rw [hr] at h
      exact Option.noConfusion h

theorem spToTg_final_snapshot (db : DB) (pl : List SpItem)
    (h : getPendingTracks db "sp_to_tg" = []) :
    stateGet (spToTgProcessNewTracks db pl).db "sp_playlist_snapshot"
      = some (.jlist (spCurrentIds pl)) := by
  unfold spToTgProcessNewTracks stateSetJson
  rw [h]
  exact stateGet_stateSet_self _ _ _

theorem ytToTgRetryLoop_trace_events (env : YtTgEnv) (now : Nat) :
    ∀ (l : List Track) (db : DB) (n : Nat) (tr : List BEvent),
      ∀ e ∈ (ytToTgRetryLoop env now l db n tr).2.2,
        e ∈ tr ∨ ∃ j, e = BEvent.retryAttempt j := by
  intro l
  induction l with
  | nil => intro db n tr e he; exact Or.inl he
  | cons t rest ih =>
      intro db n tr e he
      unfold ytToTgRetryLoop at he
      cases hv : t.yt_video_id with
      | none =>
          rw [hv] at he
          exact ih db n tr e he
      | some v =>
          rw [hv] at he
          dsimp only at he
          by_cases hve : v == ""
          · rw [if_pos hve] at he
            exact ih db n tr e he
          · rw [if_neg hve] at he
            rcases hres : ytToTgRetryTrack env now db t v with ⟨db', r⟩
            rw [hres] at he
            cases r with
            | error e2 =>
                rcases ih db' n (.retryAttempt t.id :: tr) e he with hin | hra
                · rcases List.mem_cons.mp hin with h1 | h1
                  · exact Or.inr ⟨t.id, h1⟩
                  · exact Or.inl h1
                · exact Or.inr hra
            | ok u =>
                rcases ih db' (n + 1) (.retryAttempt t.id :: tr) e he with hin | hra
                · rcases List.mem_cons.mp hin with h1 | h1
                  · exact Or.inr ⟨t.id, h1⟩
                  · exact Or.inl h1
                · exact Or.inr hra

theorem ytToTgNewLoop_trace_events (env : YtTgEnv) (now : Nat) :
    ∀ (l : List String) (db : DB) (n : Nat) (tr : List BEvent),
      ∀ e ∈ (ytToTgNewLoop env now l db n tr).2.2,
        e ∈ tr ∨ ∃ v b, e = BEvent.newItem v b := by
  intro l
  induction l with
  | nil => intro db n tr e he; exact Or.inl he
  | cons v rest ih =>
      intro db n tr e he
      unfold ytToTgNewLoop at he
      rcases hres : ytToTgSyncTrack env now db v (ytMetaOf env.ytPlaylist v) with ⟨db', r⟩
      rw [hres] at he
      cases r with
      | error e2 =>
          rcases ih db' n (.newItem v false :: tr) e he with hin | hni
          · rcases List.mem_cons.mp hin with h1 | h1
            · exact Or.inr ⟨v, false, h1⟩
            · exact Or.inl h1
          · exact Or.inr hni
      | ok u =>
          rcases ih db' (n + 1) (.newItem v true :: tr) e he with hin | hni
          · rcases List.mem_cons.mp hin with h1 | h1
            · exact Or.inr ⟨v, true, h1⟩
            · exact Or.inl h1
          · exact Or.inr hni

theorem spToTgNewLoop_trace_events (pl : List SpItem) :
    ∀ (l : List String) (db : DB) (n : Nat) (tr : List BEvent),
      ∀ e ∈ (spToTgNewLoop pl l db n tr).2.2,
        e ∈ tr ∨ ∃ v b, e = BEvent.newItem v b := by
  intro l
  induction l with
  | nil => intro db n tr e he; exact Or.inl he
  | cons v rest ih =>
      intro db n tr e he
      unfold spToTgNewLoop at he
      rcases hres : spToTgSyncTrack db v (spMetaOf pl v) with ⟨db', r⟩
      rw [hres] at he
      cases r with
      | error e2 =>
          rcases ih db' n (.newItem v false :: tr) e he with hin | hni
          · rcases List.mem_cons.mp hin with h1 | h1
            · exact Or.inr ⟨v, false, h1⟩
            · exact Or.inl h1
          · exact Or.inr hni
      | ok u =>
          rcases ih db' (n + 1) (.newItem v true :: tr) e he with hin | hni
          · rcases List.mem_cons.mp hin with h1 | h1
            · exact Or.inr ⟨v, true, h1⟩
            · exact Or.inl h1
          · exact Or.inr hni

/-- C2: for both pull-based directions, a cycle that returns normally
leaves the direction's snapshot key holding exactly the ordered external
id list of the source playlist fetched at the start of the cycle, and the
snapshot write is the single last event of the cycle — it happens only
after every discovery item has been processed (the `yt_to_tg` cycle always
returns; the `sp_to_tg` cycle's normal return is a hypothesis because a
pending row makes it raise). -/
theorem snapshot_write_after_processing (envY : YtTgEnv) (nowY : Nat) (dbY : DB)
    (dbS : DB) (plS : List SpItem) (k : Nat)
    (hS : (spToTgProcessNewTracks dbS plS).returned = some k) :
    ((ytToTgProcessNewTracks envY nowY dbY).returned.isSome = true ∧
      stateGet (ytToTgProcessNewTracks envY nowY dbY).db "yt_playlist_snapshot"
        = some (.jlist (ytCurrentIds envY.ytPlaylist)) ∧
      ∃ evs, (ytToTgProcessNewTracks envY nowY dbY).trace
          = evs ++ [BEvent.snapWrite (ytCurrentIds envY.ytPlaylist)] ∧
        ∀ ids, BEvent.snapWrite ids ∉ evs) ∧
    (stateGet (spToTgProcessNewTracks dbS plS).db "sp_playlist_snapshot"
        = some (.jlist (spCurrentIds plS)) ∧
      ∃ evs, (spToTgProcessNewTracks dbS plS).trace
          = evs ++ [BEvent.snapWrite (spCurrentIds plS)] ∧
        ∀ ids, BEvent.snapWrite ids ∉ evs) := by
  have hempty := spToTg_retries_empty_of_some dbS plS k hS
  refine ⟨⟨?_, ytToTg_final_snapshot envY nowY dbY, ?_⟩,
    spToTg_final_snapshot dbS plS hempty, ?_⟩
  · unfold ytToTgProcessNewTracks
    rfl
  · unfold ytToTgProcessNewTracks
    rcases h1 : ytToTgRetryLoop envY nowY (getPendingTracks dbY "yt_to_tg") dbY 0 []
      with ⟨db1, n1, tr1⟩
    dsimp only
    rw [h1]
    dsimp only
    rcases h2 : ytToTgNewLoop envY nowY
        ((ytCurrentIds envY.ytPlaylist).filter
          (fun v => !((snapshotIds db1 "yt_playlist_snapshot").contains v)))
        db1 n1 tr1 with ⟨db2, n2, tr2⟩
    dsimp only
    refine ⟨tr2.reverse, by rw [List.reverse_cons], ?_⟩
    intro ids hmem
    rw [List.mem_reverse] at hmem
    have he2 := ytToTgNewLoop_trace_events envY nowY
      ((ytCurrentIds envY.ytPlaylist).filter
        (fun v => !((snapshotIds db1 "yt_playlist_snapshot").contains v)))
      db1 n1 tr1 (BEvent.snapWrite ids)
    rw [h2] at he2
    rcases he2 hmem with hin | ⟨v, b, hni⟩
    · have he1 := ytToTgRetryLoop_trace_events envY nowY
        (getPendingTracks dbY "yt_to_tg") dbY 0 [] (BEvent.snapWrite ids)
      rw [h1] at he1
      rcases he1 hin with h0 | ⟨j, hra⟩
      · exact List.not_mem_nil _ h0
      · exact BEvent.noConfusion hra
    · exact BEvent.noConfusion hni
  · unfold spToTgProcessNewTracks
    rw [hempty]
    dsimp only
    rcases h2 : spToTgNewLoop plS
        ((spCurrentIds plS).filter
          (fun v => !((snapshotIds dbS "sp_playlist_snapshot").contains v)))
        dbS 0 [] with ⟨db2, n2, tr2⟩
    dsimp only
    refine ⟨tr2.reverse, by rw [List.reverse_cons], ?_⟩
    intro ids hmem
    rw [List.mem_reverse] at hmem
    have he2 := spToTgNewLoop_trace_events plS
      ((spCurrentIds plS).filter
        (fun v => !((snapshotIds dbS "sp_playlist_snapshot").contains v)))
      dbS 0 [] (BEvent.snapWrite ids)
    rw [h2] at he2
    rcases he2 hmem with h0 | ⟨v, b, hni⟩
    · exact List.not_mem_nil _ h0
    · exact BEvent.noConfusion hni

/-- C2 witness: both cycles evaluated on a small concrete store and
playlists. -/
theorem snapshot_write_after_processing_witness :
    ((ytToTgProcessNewTracks
        { ytPlaylist := [{ videoId := "v1" }, { videoId := "v2" }],
          download := fun _ => .ok "p", sendAudio := fun _ _ _ _ _ => .ok 7 } 0
        {}).returned.isSome = true ∧
      stateGet (ytToTgProcessNewTracks
          { ytPlaylist := [{ videoId := "v1" }, { videoId := "v2" }],
            download := fun _ => .ok "p", sendAudio := fun _ _ _ _ _ => .ok 7 } 0
          {}).db "yt_playlist_snapshot"
        = some (.jlist (ytCurrentIds
            [{ videoId := "v1" }, { videoId := "v2" }])) ∧
      ∃ evs, (ytToTgProcessNewTracks
            { ytPlaylist := [{ videoId := "v1" }, { videoId := "v2" }],
              download := fun _ => .ok "p", sendAudio := fun _ _ _ _ _ => .ok 7 } 0
            {}).trace
          = evs ++ [BEvent.snapWrite (ytCurrentIds
              [{ videoId := "v1" }, { videoId := "v2" }])] ∧
        ∀ ids, BEvent.snapWrite ids ∉ evs) ∧
    (stateGet (spToTgProcessNewTracks {} [{ id := "s1" }]).db "sp_playlist_snapshot"
        = some (.jlist (spCurrentIds [{ id := "s1" }])) ∧
      ∃ evs, (spToTgProcessNewTracks {} [{ id := "s1" }]).trace
          = evs ++ [BEvent.snapWrite (spCurrentIds [{ id := "s1" }])] ∧
        ∀ ids, BEvent.snapWrite ids ∉ evs) :=
  snapshot_write_after_processing
    { ytPlaylist := [{ videoId := "v1" }, { videoId := "v2" }],
      download := fun _ => .ok "p", sendAudio := fun _ _ _ _ _ => .ok 7 } 0 {}
    {} [{ id := "s1" }] 0 (by decide)

theorem filter_self_empty (l : List String) : l.filter (fun v => !(l.contains v)) = [] := by
  apply List.filter_eq_nil_iff.mpr
  intro a ha
  have hc : l.contains a = true := by simpa using ha
  rw [hc]
  simp

theorem snapshotIds_of_get (db : DB) (k : String) (l : List String)
    (h : stateGet db k = some (.jlist l)) : snapshotIds db k = l := by
  unfold snapshotIds
  rw [h]

theorem ytToTg_no_creation (env : YtTgEnv) (now : Nat) (db : DB)
    (hfilter : (ytCurrentIds env.ytPlaylist).filter
        (fun v => !((snapshotIds db "yt_playlist_snapshot").contains v)) = []) :
    (ytToTgProcessNewTracks env now db).db.tracks.map (fun t => t.id)
      = db.tracks.map (fun t => t.id) := by
  unfold ytToTgProcessNewTracks
  rcases h1 : ytToTgRetryLoop env now (getPendingTracks db "yt_to_tg") db 0 []
    with ⟨db1, n1, tr1⟩
  dsimp only
  rw [h1]
  dsimp only
  have hss : db1.syncState = db.syncState := by
    have h0 := ytToTgRetryLoop_syncState env now (getPendingTracks db "yt_to_tg") db 0 []
    rw [h1] at h0
    exact h0
  have hmap1 : db1.tracks.map (fun t => t.id) = db.tracks.map (fun t => t.id) := by
    have h0 := ytToTgRetryLoop_map_id env now (getPendingTracks db "yt_to_tg") db 0 []
    rw [h1] at h0
    exact h0
  have hsnapeq : snapshotIds db1 "yt_playlist_snapshot"
      = snapshotIds db "yt_playlist_snapshot" := by
    unfold snapshotIds stateGet
    rw [hss]
  rw [hsnapeq, hfilter]
  unfold ytToTgNewLoop
  dsimp only
  unfold stateSetJson
  rw [stateSet_tracks]
  exact hmap1

theorem spToTgNewLoop_db (pl : List SpItem) :
    ∀ (l : List String) (db : DB) (n : Nat) (tr : List BEvent),
      (spToTgNewLoop pl l db n tr).1 = db := by
  intro l
  induction l with
  | nil => intro db n tr; rfl
  | cons v rest ih =>
      intro db n tr
      unfold spToTgNewLoop spToTgSyncTrack getTrackBySpTrackId
      dsimp only
      exact ih db n (.newItem v false :: tr)

theorem spToTg_tracks_unchanged (db : DB) (pl : List SpItem)
    (h : getPendingTracks db "sp_to_tg" = []) :
    (spToTgProcessNewTracks db pl).db.tracks = db.tracks := by
  unfold spToTgProcessNewTracks
  rw [h]
  dsimp only
  rcases h2 : spToTgNewLoop pl
      ((spCurrentIds pl).filter
        (fun v => !((snapshotIds db "sp_playlist_snapshot").contains v)))
      db 0 [] with ⟨db2, n2, tr2⟩
  dsimp only
  have hdb2 : db2 = db := by
    have h0 := spToTgNewLoop_db pl
      ((spCurrentIds pl).filter
        (fun v => !((snapshotIds db "sp_playlist_snapshot").contains v)))
      db 0 []
    rw [h2] at h0
    exact h0
  unfold stateSetJson
  rw [stateSet_tracks, hdb2]

theorem spToTg_returns_of_empty (db : DB) (pl : List SpItem)
    (h : getPendingTracks db "sp_to_tg" = []) :
    (spToTgProcessNewTracks db pl).returned.isSome = true := by
  unfold spToTgProcessNewTracks
  rw [h]
  dsimp only
  rcases h2 : spToTgNewLoop pl
      ((spCurrentIds pl).filter
        (fun v => !((snapshotIds db "sp_playlist_snapshot").contains v)))
      db 0 [] with ⟨db2, n2, tr2⟩
  rfl

/-- C3: idempotent replay.  When the source playlist is unchanged between
two consecutive pull-based cycles and the first returns normally, the
second creates no track rows: for `yt_to_tg` the row id multiset is
unchanged by the second cycle (its diff is empty and its retry phase only
updates rows in place), and for `sp_to_tg` the second cycle leaves the
rows untouched and still returns normally. -/
theorem idempotent_replay (env1 env2 : YtTgEnv) (now1 now2 : Nat) (dbY : DB)
    (hpl : env2.ytPlaylist = env1.ytPlaylist)
    (dbS : DB) (plS : List SpItem) (k : Nat)
    (hS : (spToTgProcessNewTracks dbS plS).returned = some k) :
    ((ytToTgProcessNewTracks env2 now2
          (ytToTgProcessNewTracks env1 now1 dbY).db).db.tracks.map (fun t => t.id)
        = (ytToTgProcessNewTracks env1 now1 dbY).db.tracks.map (fun t => t.id)) ∧
      ((spToTgProcessNewTracks (spToTgProcessNewTracks dbS plS).db plS).db.tracks
        = (spToTgProcessNewTracks dbS plS).db.tracks) ∧
      (spToTgProcessNewTracks
          (spToTgProcessNewTracks dbS plS).db plS).returned.isSome = true := by
  have hempty := spToTg_retries_empty_of_some dbS plS k hS
  have hempty2 : getPendingTracks (spToTgProcessNewTracks dbS plS).db "sp_to_tg" = [] := by
    unfold getPendingTracks
    rw [spToTg_tracks_unchanged dbS plS hempty]
    exact hempty
  refine ⟨?_, spToTg_tracks_unchanged _ plS hempty2,
    spToTg_returns_of_empty _ plS hempty2⟩
  apply ytToTg_no_creation
  have hsnap := ytToTg_final_snapshot env1 now1 dbY
  rw [snapshotIds_of_get _ _ _ hsnap, hpl]
  exact filter_self_empty _

/-- C3 witness: a first-run mirror of a one-item playlist followed by a
replay of the same playlist. -/
theorem idempotent_replay_witness :
    ((ytToTgProcessNewTracks
          { ytPlaylist := [{ videoId := "v1" }], download := fun _ => .ok "p",
            sendAudio := fun _ _ _ _ _ => .ok 7 } 1
          (ytToTgProcessNewTracks
            { ytPlaylist := [{ videoId := "v1" }], download := fun _ => .ok "p",
              sendAudio := fun _ _ _ _ _ => .ok 7 } 0 {}).db).db.tracks.map
          (fun t => t.id)
        = (ytToTgProcessNewTracks
            { ytPlaylist := [{ videoId := "v1" }], download := fun _ => .ok "p",
              sendAudio := fun _ _ _ _ _ => .ok 7 } 0 {}).db.tracks.map
          (fun t => t.id)) ∧
      ((spToTgProcessNewTracks
            (spToTgProcessNewTracks {} [{ id := "s1" }]).db [{ id := "s1" }]).db.tracks
        = (spToTgProcessNewTracks {} [{ id := "s1" }]).db.tracks) ∧
      (spToTgProcessNewTracks
          (spToTgProcessNewTracks {} [{ id := "s1" }]).db
          [{ id := "s1" }]).returned.isSome = true :=
  idempotent_replay
    { ytPlaylist := [{ videoId := "v1" }], download := fun _ => .ok "p",
      sendAudio := fun _ _ _ _ _ => .ok 7 }
    { ytPlaylist := [{ videoId := "v1" }], download := fun _ => .ok "p",
      sendAudio := fun _ _ _ _ _ => .ok 7 }
    1 0 {} rfl {} [{ id := "s1" }] 0 (by decide)

/-! ## Claim C5 — per-item isolation of unexpected exceptions (Shape A) -/

theorem getTrack_markSynced_ne (db : DB) (i : Nat) (now : Nat) (extra : Upd)
    (j : Nat) (h : j ≠ i) :
    getTrack (markSynced db i now extra).1 j = getTrack db j :=
  getTrack_updateTrack_ne db i j _ h

theorem getTrack_markDuplicate_ne (db : DB) (i j : Nat) (h : j ≠ i) :
    getTrack (markDuplicate db i).1 j = getTrack db j :=
  getTrack_updateTrack_ne db i j _ h

theorem getTrack_markFailed_ne (db : DB) (i : Nat) (r : String) (j : Nat)
    (h : j ≠ i) :
    getTrack (markFailed db i r).1 j = getTrack db j := by
  unfold markFailed
  cases hg : getTrack db i with
  | none => rfl
  | some t => exact getTrack_updateTrack_ne db i j _ h

theorem markSynced_map_id (db : DB) (i : Nat) (now : Nat) (extra : Upd) :
    ((markSynced db i now extra).1).tracks.map (fun t => t.id)
      = db.tracks.map (fun t => t.id) :=
  updateTrack_map_id db i _

theorem markDuplicate_map_id (db : DB) (i : Nat) :
    ((markDuplicate db i).1).tracks.map (fun t => t.id)
      = db.tracks.map (fun t => t.id) :=
  updateTrack_map_id db i _

theorem markFailed_logs (db : DB) (i : Nat) (r : String) :
    ((markFailed db i r).1).logs = db.logs := by
  unfold markFailed
  cases hg : getTrack db i with
  | none => rfl
  | some t => rfl

theorem markSynced_logs (db : DB) (i : Nat) (now : Nat) (extra : Upd) :
    ((markSynced db i now extra).1).logs = db.logs := rfl

theorem markDuplicate_logs (db : DB) (i : Nat) :
    ((markDuplicate db i).1).logs = db.logs := rfl

theorem getTrack_isSome_iff (db : DB) (j : Nat) :
    (getTrack db j).isSome = true ↔ j ∈ db.tracks.map (fun t => t.id) := by
  unfold getTrack
  induction db.tracks with
  | nil => simp
  | cons t rest ih =>
      rw [List.find?_cons]
      by_cases htj : t.id = j
      · have hb : (t.id == j) = true := by simp [htj]
        rw [hb]
        simp [htj]
      · have hb : (t.id == j) = false := by simp [htj]
        rw [hb]
        simp only [List.map_cons, List.mem_cons]
        rw [ih]
        constructor
        · exact Or.inr
        · rintro (h1 | h1)
          · exact absurd h1.symm htj
          · exact h1

theorem tgToYtProcessTrack_frame (env : TgYtEnv) (now : Nat) (db : DB) (t : Track)
    (j : Nat) (hj : j ≠ t.id) :
    getTrack (tgToYtProcessTrack env now db t).1 j = getTrack db j := by
  unfold tgToYtProcessTrack
  dsimp only
  repeat' split
  all_goals
    simp [getTrack_updateTrack_ne, getTrack_markFailed_ne, getTrack_markSynced_ne,
      getTrack_markDuplicate_ne, getTrack_logEvent, hj]

theorem tgToYtProcessTrack_map_id (env : TgYtEnv) (now : Nat) (db : DB) (t : Track) :
    ((tgToYtProcessTrack env now db t).1).tracks.map (fun t => t.id)
      = db.tracks.map (fun t => t.id) := by
  unfold tgToYtProcessTrack
  dsimp only
  repeat' split
  all_goals
    simp [updateTrack_map_id, markFailed_map_id, markSynced_map_id,
      markDuplicate_map_id, logEvent_tracks]

theorem tgToYtProcessTrack_logs_mono (env : TgYtEnv) (now : Nat) (db : DB)
    (t : Track) (e : LogEntry) (he : e ∈ db.logs) :
    e ∈ ((tgToYtProcessTrack env now db t).1).logs := by
  unfold tgToYtProcessTrack
  dsimp only
  repeat' split
  all_goals
    simp [logEvent_logs, updateTrack_logs, markFailed_logs, markSynced_logs,
      markDuplicate_logs, List.mem_append, he]

theorem spToYtProcessTrack_frame (env : SpYtEnv) (now : Nat) (db : DB) (t : Track)
    (j : Nat) (hj : j ≠ t.id) :
    getTrack (spToYtProcessTrack env now db t).1 j = getTrack db j := by
  unfold spToYtProcessTrack
  dsimp only
  repeat' split
  all_goals
    simp [getTrack_updateTrack_ne, getTrack_markFailed_ne, getTrack_markSynced_ne,
      getTrack_markDuplicate_ne, getTrack_logEvent, hj]

theorem spToYtProcessTrack_map_id (env : SpYtEnv) (now : Nat) (db : DB) (t : Track) :
    ((spToYtProcessTrack env now db t).1).tracks.map (fun t => t.id)
      = db.tracks.map (fun t => t.id) := by
  unfold spToYtProcessTrack
  dsimp only
  repeat' split
  all_goals
    simp [updateTrack_map_id, markFailed_map_id, markSynced_map_id,
      markDuplicate_map_id, logEvent_tracks]

theorem spToYtProcessTrack_logs_mono (env : SpYtEnv) (now : Nat) (db : DB)
    (t : Track) (e : LogEntry) (he : e ∈ db.logs) :
    e ∈ ((spToYtProcessTrack env now db t).1).logs := by
  unfold spToYtProcessTrack
  dsimp only
  repeat' split
  all_goals
    simp [logEvent_logs, updateTrack_logs, markFailed_logs, markSynced_logs,
      markDuplicate_logs, List.mem_append, he]

theorem tgToYtLoop_frame (env : TgYtEnv) (now : Nat) :
    ∀ (l : List Track) (db : DB) (n : Nat) (tr : List Nat) (j : Nat),
      (∀ u ∈ l, u.id ≠ j) →
      getTrack (tgToYtLoop env now l db n tr).db j = getTrack db j := by
  intro l
  induction l with
  | nil => intro db n tr j hl; rfl
  | cons u rest ih =>
      intro db n tr j hl
      have huj : u.id ≠ j := hl u (List.mem_cons_self u rest)
      have hrest : ∀ w ∈ rest, w.id ≠ j := fun w hw => hl w (List.mem_cons_of_mem u hw)
      unfold tgToYtLoop
      rcases hres : tgToYtProcessTrack env now db u with ⟨db', r⟩
      have hfr : getTrack db' j = getTrack db j := by
        have h0 := tgToYtProcessTrack_frame env now db u j (Ne.symm huj)
        rw [hres] at h0
        exact h0
      cases r with
      | ok a =>
          dsimp only
          rw [ih db' (n + 1) (u.id :: tr) j hrest]
          exact hfr
      | error e =>
          dsimp only
          rw [ih _ n (u.id :: tr) j hrest]
          rw [getTrack_logEvent, getTrack_markFailed_ne _ _ _ _ (Ne.symm huj)]
          exact hfr

theorem tgToYtLoop_logs_mono (env : TgYtEnv) (now : Nat) :
    ∀ (l : List Track) (db : DB) (n : Nat) (tr : List Nat) (e : LogEntry),
      e ∈ db.logs → e ∈ (tgToYtLoop env now l db n tr).db.logs := by
  intro l
  induction l with
  | nil => intro db n tr e he; exact he
  | cons u rest ih =>
      intro db n tr e he
      unfold tgToYtLoop
      rcases hres : tgToYtProcessTrack env now db u with ⟨db', r⟩
      have he' : e ∈ db'.logs := by
        have h0 := tgToYtProcessTrack_logs_mono env now db u e he
        rw [hres] at h0
        exact h0
      cases r with
      | ok a =>
          dsimp only
          exact ih db' (n + 1) (u.id :: tr) e he'
      | error e2 =>
          dsimp only
          refine ih _ n (u.id :: tr) e ?_
          rw [logEvent_logs, markFailed_logs]
          exact List.mem_append_left _ he'

theorem tgToYtProcessTrack_download_error (env : TgYtEnv) (now : Nat) (db : DB)
    (t : Track) (fid : String) (e0 : PyErr)
    (hfid : t.tg_file_id = some fid) (hne : fid ≠ "")
    (hdl : env.downloadFile fid = .error e0) :
    tgToYtProcessTrack env now db t
      = ((updateTrack db t.id { status := some "identifying" }).1, .error e0) := by
  unfold tgToYtProcessTrack
  have htr : truthyS t.tg_file_id = true := by
    rw [hfid]
    unfold truthyS
    simpa using hne
  rw [htr, hfid]
  dsimp only [Option.getD]
  rw [hdl]
  rfl

theorem tgToYtLoop_fail_marks (env : TgYtEnv) (now : Nat) (fid : String) (e0 : PyErr)
    (hdl : env.downloadFile fid = .error e0) :
    ∀ (l : List Track) (db : DB) (n : Nat) (tr : List Nat) (t : Track),
      t ∈ l →
      (l.map (fun u => u.id)).Nodup →
      (getTrack db t.id).isSome = true →
      t.tg_file_id = some fid → fid ≠ "" →
      ∃ t', getTrack (tgToYtLoop env now l db n tr).db t.id = some t' ∧
        t'.status = "failed" ∧ t'.failure_reason = some "unexpected_error" ∧
        (⟨some t.id, "sync_failed", some "tg_to_yt"⟩ : LogEntry)
          ∈ (tgToYtLoop env now l db n tr).db.logs := by
  intro l
  induction l with
  | nil => intro db n tr t htl; exact absurd htl (List.not_mem_nil t)
  | cons u rest ih =>
      intro db n tr t htl hnd hsome hfid hne
      rcases List.mem_cons.mp htl with heq | hmem
      · subst heq
        unfold tgToYtLoop
        rw [tgToYtProcessTrack_download_error env now db t fid e0 hfid hne hdl]
        dsimp only
        set db1 := (updateTrack db t.id { status := some "identifying" }).1 with hdb1
        have hsome1 : (getTrack db1 t.id).isSome = true := by
          rw [getTrack_isSome_iff] at hsome ⊢
          rw [hdb1, updateTrack_map_id]
          exact hsome
        rcases Option.isSome_iff_exists.mp hsome1 with ⟨t0, ht0⟩
        have hmark : getTrack (markFailed db1 t.id "unexpected_error").1 t.id
            = some (applyUpd
              { status := some "failed",
                failure_reason := some (some "unexpected_error"),
                retry_count := some (t0.retry_count + 1) } t0) := by
          unfold markFailed
          rw [ht0]
          rw [getTrack_updateTrack_self, ht0]
          rfl
        have hids : ∀ w ∈ rest, w.id ≠ t.id := by
          intro w hw
          have h1 := (List.nodup_cons.mp hnd).1
          intro hcontra
          have h2 : w.id ∈ rest.map (fun u => u.id) := List.mem_map_of_mem _ hw
          rw [hcontra] at h2
          exact h1 h2
        refine ⟨applyUpd
            { status := some "failed",
              failure_reason := some (some "unexpected_error"),
              retry_count := some (t0.retry_count + 1) } t0, ?_, rfl, rfl, ?_⟩
        · rw [tgToYtLoop_frame env now rest _ n (t.id :: tr) t.id hids,
            getTrack_logEvent, hmark]
        · apply tgToYtLoop_logs_mono
          rw [logEvent_logs]
          exact List.mem_append_right _ (List.mem_singleton.mpr rfl)
      · unfold tgToYtLoop
        rcases hres : tgToYtProcessTrack env now db u with ⟨db', r⟩
        have hmap : db'.tracks.map (fun w => w.id) = db.tracks.map (fun w => w.id) := by
          have h0 := tgToYtProcessTrack_map_id env now db u
          rw [hres] at h0
          exact h0
        have hnd' : (rest.map (fun w => w.id)).Nodup := (List.nodup_cons.mp hnd).2
        have hsome' : (getTrack db' t.id).isSome = true := by
          rw [getTrack_isSome_iff, hmap]
          rw [getTrack_isSome_iff] at hsome
          exact hsome
        cases r with
        | ok a =>
            dsimp only
            exact ih db' (n + 1) (u.id :: tr) t hmem hnd' hsome' hfid hne
        | error e2 =>
            dsimp only
            refine ih _ n (u.id :: tr) t hmem hnd' ?_ hfid hne
            rw [getTrack_isSome_iff, logEvent_tracks, markFailed_map_id, hmap]
            rw [getTrack_isSome_iff] at hsome
            exact hsome

theorem spToYtLoop_frame (env : SpYtEnv) (now : Nat) :
    ∀ (l : List Track) (db : DB) (n : Nat) (tr : List Nat) (j : Nat),
      (∀ u ∈ l, u.id ≠ j) →
      getTrack (spToYtLoop env now l db n tr).db j = getTrack db j := by
  intro l
  induction l with
  | nil => intro db n tr j hl; rfl
  | cons u rest ih =>
      intro db n tr j hl
      have huj : u.id ≠ j := hl u (List.mem_cons_self u rest)
      have hrest : ∀ w ∈ rest, w.id ≠ j := fun w hw => hl w (List.mem_cons_of_mem u hw)
      unfold spToYtLoop
      rcases hres : spToYtProcessTrack env now db u with ⟨db', r⟩
      have hfr : getTrack db' j = getTrack db j := by
        have h0 := spToYtProcessTrack_frame env now db u j (Ne.symm huj)
        rw [hres] at h0
        exact h0
      cases r with
      | ok a =>
          dsimp only
          rw [ih db' (n + 1) (u.id :: tr) j hrest]
          exact hfr
      | error e =>
          dsimp only
          rw [ih _ n (u.id :: tr) j hrest]
          rw [getTrack_logEvent, getTrack_markFailed_ne _ _ _ _ (Ne.symm huj)]
          exact hfr

theorem spToYtLoop_logs_mono (env : SpYtEnv) (now : Nat) :
    ∀ (l : List Track) (db : DB) (n : Nat) (tr : List Nat) (e : LogEntry),
      e ∈ db.logs → e ∈ (spToYtLoop env now l db n tr).db.logs := by
  intro l
  induction l with
  | nil => intro db n tr e he; exact he
  | cons u rest ih =>
      intro db n tr e he
      unfold spToYtLoop
      rcases hres : spToYtProcessTrack env now db u with ⟨db', r⟩
      have he' : e ∈ db'.logs := by
        have h0 := spToYtProcessTrack_logs_mono env now db u e he
        rw [hres] at h0
        exact h0
      cases r with
      | ok a =>
          dsimp only
          exact ih db' (n + 1) (u.id :: tr) e he'
      | error e2 =>
          dsimp only
          refine ih _ n (u.id :: tr) e ?_
          rw [logEvent_logs, markFailed_logs]
          exact List.mem_append_left _ he'

theorem spToYtProcessTrack_search_error (env : SpYtEnv) (now : Nat) (db : DB)
    (t : Track) (e0 : PyErr)
    (hs : env.findBestMatch t.artist t.title = .error e0) :
    spToYtProcessTrack env now db t
      = ((updateTrack db t.id { status := some "searching" }).1, .error e0) := by
  unfold spToYtProcessTrack
  rw [hs]

theorem spToYtLoop_fail_marks (env : SpYtEnv) (now : Nat) :
    ∀ (l : List Track) (db : DB) (n : Nat) (tr : List Nat) (t : Track) (e0 : PyErr),
      t ∈ l →
      (l.map (fun u => u.id)).Nodup →
      (getTrack db t.id).isSome = true →
      env.findBestMatch t.artist t.title = .error e0 →
      ∃ t', getTrack (spToYtLoop env now l db n tr).db t.id = some t' ∧
        t'.status = "failed" ∧ t'.failure_reason = some "unexpected_error" ∧
        (⟨some t.id, "sync_failed", some "sp_to_yt"⟩ : LogEntry)
          ∈ (spToYtLoop env now l db n tr).db.logs := by
  intro l
  induction l with
  | nil => intro db n tr t e0 htl; exact absurd htl (List.not_mem_nil t)
  | cons u rest ih =>
      intro db n tr t e0 htl hnd hsome hserr
      rcases List.mem_cons.mp htl with heq | hmem
      · subst heq
        unfold spToYtLoop
        rw [spToYtProcessTrack_search_error env now db t e0 hserr]
        dsimp only
        set db1 := (updateTrack db t.id { status := some "searching" }).1 with hdb1
        have hsome1 : (getTrack db1 t.id).isSome = true := by
          rw [getTrack_isSome_iff] at hsome ⊢
          rw [hdb1, updateTrack_map_id]
          exact hsome
        rcases Option.isSome_iff_exists.mp hsome1 with ⟨t0, ht0⟩
        have hmark : getTrack (markFailed db1 t.id "unexpected_error").1 t.id
            = some (applyUpd
              { status := some "failed",
                failure_reason := some (some "unexpected_error"),
                retry_count := some (t0.retry_count + 1) } t0) := by
          unfold markFailed
          rw [ht0]
          rw [getTrack_updateTrack_self, ht0]
          rfl
        have hids : ∀ w ∈ rest, w.id ≠ t.id := by
          intro w hw
          have h1 := (List.nodup_cons.mp hnd).1
          intro hcontra
          have h2 : w.id ∈ rest.map (fun u => u.id) := List.mem_map_of_mem _ hw
          rw [hcontra] at h2
          exact h1 h2
        refine ⟨applyUpd
            { status := some "failed",
              failure_reason := some (some "unexpected_error"),
              retry_count := some (t0.retry_count + 1) } t0, ?_, rfl, rfl, ?_⟩
        · rw [spToYtLoop_frame env now rest _ n (t.id :: tr) t.id hids,
            getTrack_logEvent, hmark]
        · apply spToYtLoop_logs_mono
          rw [logEvent_logs]
          exact List.mem_append_right _ (List.mem_singleton.mpr rfl)
      · unfold spToYtLoop
        rcases hres : spToYtProcessTrack env now db u with ⟨db', r⟩
        have hmap : db'.tracks.map (fun w => w.id) = db.tracks.map (fun w => w.id) := by
          have h0 := spToYtProcessTrack_map_id env now db u
          rw [hres] at h0
          exact h0
        have hnd' : (rest.map (fun w => w.id)).Nodup := (List.nodup_cons.mp hnd).2
        have hsome' : (getTrack db' t.id).isSome = true := by
          rw [getTrack_isSome_iff, hmap]
          rw [getTrack_isSome_iff] at hsome
          exact hsome
        cases r with
        | ok a =>
            dsimp only
            exact ih db' (n + 1) (u.id :: tr) t e0 hmem hnd' hsome' hserr
        | error e2 =>
            dsimp only
            refine ih _ n (u.id :: tr) t e0 hmem hnd' ?_ hserr
            rw [getTrack_isSome_iff, logEvent_tracks, markFailed_map_id, hmap]
            rw [getTrack_isSome_iff] at hsome
            exact hsome

/-- C5: in the cited Shape A cycles (`tg_to_yt`, `sp_to_yt`), an
unexpected exception while processing one pending track — injected here at
an external call of that track's own processing (`download_file` on its
`tg_file_id`, respectively the target search on its (artist, title)) —
leaves exactly that track `failed` with `failure_reason =
unexpected_error`, appends a `sync_failed` log row for it, and the cycle
does not abort: the per-item loop still attempts every pending track of
the cycle in order. -/
theorem unexpected_exception_isolated (env : TgYtEnv) (now : Nat) (db : DB)
    (t : Track) (fid : String) (e0 : PyErr)
    (h : db.wf) (ht : t ∈ getPendingTracks db "tg_to_yt")
    (hfid : t.tg_file_id = some fid) (hne : fid ≠ "")
    (herr : env.downloadFile fid = .error e0)
    (envS : SpYtEnv) (nowS : Nat) (dbS : DB) (tS : Track) (eS : PyErr)
    (hwS : dbS.wf) (htS : tS ∈ getPendingTracks dbS "sp_to_yt")
    (herrS : envS.findBestMatch tS.artist tS.title = .error eS) :
    (∃ t', getTrack (tgToYtProcessPending env now db).db t.id = some t' ∧
        t'.status = "failed" ∧ t'.failure_reason = some "unexpected_error") ∧
      (⟨some t.id, "sync_failed", some "tg_to_yt"⟩ : LogEntry)
        ∈ (tgToYtProcessPending env now db).db.logs ∧
      (tgToYtProcessPending env now db).trace
        = (getPendingTracks db "tg_to_yt").map (fun u => u.id) ∧
      (∃ t', getTrack (spToYtProcessPending envS nowS dbS).db tS.id = some t' ∧
        t'.status = "failed" ∧ t'.failure_reason = some "unexpected_error") ∧
      (⟨some tS.id, "sync_failed", some "sp_to_yt"⟩ : LogEntry)
        ∈ (spToYtProcessPending envS nowS dbS).db.logs ∧
      (spToYtProcessPending envS nowS dbS).trace
        = (getPendingTracks dbS "sp_to_yt").map (fun u => u.id) := by
  have hnd : ((getPendingTracks db "tg_to_yt").map (fun u => u.id)).Nodup := by
    have hp : ((getPendingTracks db "tg_to_yt").map (fun u => u.id)).Pairwise (· < ·) :=
      List.Pairwise.sublist
        (List.Sublist.map _ (getPendingTracks_sublist db "tg_to_yt")) h.1
    exact hp.imp Nat.ne_of_lt
  have hndS : ((getPendingTracks dbS "sp_to_yt").map (fun u => u.id)).Nodup := by
    have hp : ((getPendingTracks dbS "sp_to_yt").map (fun u => u.id)).Pairwise (· < ·) :=
      List.Pairwise.sublist
        (List.Sublist.map _ (getPendingTracks_sublist dbS "sp_to_yt")) hwS.1
    exact hp.imp Nat.ne_of_lt
  have hsome : (getTrack db t.id).isSome = true := by
    rw [getTrack_isSome_iff]
    exact List.mem_map_of_mem _ (List.Sublist.mem ht (getPendingTracks_sublist db "tg_to_yt"))
  have hsomeS : (getTrack dbS tS.id).isSome = true := by
    rw [getTrack_isSome_iff]
    exact List.mem_map_of_mem _ (List.Sublist.mem htS (getPendingTracks_sublist dbS "sp_to_yt"))
  rcases tgToYtLoop_fail_marks env now fid e0 herr
      (getPendingTracks db "tg_to_yt") db 0 [] t ht hnd hsome hfid hne with
    ⟨t', ht', hst, hfr, hlog⟩
  rcases spToYtLoop_fail_marks envS nowS
      (getPendingTracks dbS "sp_to_yt") dbS 0 [] tS eS htS hndS hsomeS herrS with
    ⟨tS', htS', hstS, hfrS, hlogS⟩
  exact ⟨⟨t', ht', hst, hfr⟩, hlog, tgToYtProcessPending_trace env now db,
    ⟨tS', htS', hstS, hfrS⟩, hlogS, spToYtProcessPending_trace envS nowS dbS⟩

/-- C5 witness: one-track stores where the injected adapter failure marks
the track `failed`/`unexpected_error`, logs `sync_failed` and the cycle
still attempts the whole pending list. -/
theorem unexpected_exception_isolated_witness :
    (∃ t', getTrack (tgToYtProcessPending
          { ytPlaylist := [], downloadFile := fun _ => .error (.adapter "boom"),
            id3 := fun _ => none, findBestMatch := fun _ _ => .ok none,
            addToPlaylist := fun _ => .ok () } 0
          (createTrack {}
            (fun i => { id := i, direction := "tg_to_yt", title := "A",
                        tg_file_id := some "f1" })).1).db 1 = some t' ∧
        t'.status = "failed" ∧ t'.failure_reason = some "unexpected_error") ∧
      (⟨some 1, "sync_failed", some "tg_to_yt"⟩ : LogEntry)
        ∈ (tgToYtProcessPending
            { ytPlaylist := [], downloadFile := fun _ => .error (.adapter "boom"),
              id3 := fun _ => none, findBestMatch := fun _ _ => .ok none,
              addToPlaylist := fun _ => .ok () } 0
            (createTrack {}
              (fun i => { id := i, direction := "tg_to_yt", title := "A",
                          tg_file_id := some "f1" })).1).db.logs ∧
      (tgToYtProcessPending
          { ytPlaylist := [], downloadFile := fun _ => .error (.adapter "boom"),
            id3 := fun _ => none, findBestMatch := fun _ _ => .ok none,
            addToPlaylist := fun _ => .ok () } 0
          (createTrack {}
            (fun i => { id := i, direction := "tg_to_yt", title := "A",
                        tg_file_id := some "f1" })).1).trace
        = (getPendingTracks
            (createTrack {}
              (fun i => { id := i, direction := "tg_to_yt", title := "A",
                          tg_file_id := some "f1" })).1 "tg_to_yt").map (fun u => u.id) ∧
      (∃ t', getTrack (spToYtProcessPending
          { ytPlaylist := [], findBestMatch := fun _ _ => .error (.adapter "down"),
            addToPlaylist := fun _ => .ok () } 0
          (createTrack {}
            (fun i => { id := i, direction := "sp_to_yt", title := "B",
                        artist := some "Q" })).1).db 1 = some t' ∧
        t'.status = "failed" ∧ t'.failure_reason = some "unexpected_error") ∧
      (⟨some 1, "sync_failed", some "sp_to_yt"⟩ : LogEntry)
        ∈ (spToYtProcessPending
            { ytPlaylist := [], findBestMatch := fun _ _ => .error (.adapter "down"),
              addToPlaylist := fun _ => .ok () } 0
            (createTrack {}
              (fun i => { id := i, direction := "sp_to_yt", title := "B",
                          artist := some "Q" })).1).db.logs ∧
      (spToYtProcessPending
          { ytPlaylist := [], findBestMatch := fun _ _ => .error (.adapter "down"),
            addToPlaylist := fun _ => .ok () } 0
          (createTrack {}
            (fun i => { id := i, direction := "sp_to_yt", title := "B",
                        artist := some "Q" })).1).trace
        = (getPendingTracks
            (createTrack {}
              (fun i => { id := i, direction := "sp_to_yt", title := "B",
                          artist := some "Q" })).1 "sp_to_yt").map (fun u => u.id) :=
  unexpected_exception_isolated
    { ytPlaylist := [], downloadFile := fun _ => .error (.adapter "boom"),
      id3 := fun _ => none, findBestMatch := fun _ _ => .ok none,
      addToPlaylist := fun _ => .ok () } 0
    (createTrack {}
      (fun i => { id := i, direction := "tg_to_yt", title := "A",
                  tg_file_id := some "f1" })).1
    { id := 1, direction := "tg_to_yt", title := "A", tg_file_id := some "f1" }
    "f1" (.adapter "boom")
    (by unfold DB.wf; refine ⟨?_, ?_⟩ <;> decide)
    (by decide) (by decide) (by decide) rfl
    { ytPlaylist := [], findBestMatch := fun _ _ => .error (.adapter "down"),
      addToPlaylist := fun _ => .ok () } 0
    (createTrack {}
      (fun i => { id := i, direction := "sp_to_yt", title := "B",
                  artist := some "Q" })).1
    { id := 1, direction := "sp_to_yt", title := "B", artist := some "Q" }
    (.adapter "down")
    (by unfold DB.wf; refine ⟨?_, ?_⟩ <;> decide)
    (by decide) rfl

end Navaar
